import Mathlib

/-! Drawin objects and legacy screen geometry

A shallow embedding of `objects/drawin.c` and `screen.c`.

The C code mutates three kinds of state: the drawin objects living in the Lua
heap, the global configuration (`globalconf`: the array of visible drawins and
the X connection), and the X server behind the connection.  All three are made
explicit in `globalconf_t`; every C function becomes a function from state to
state.  A pointer to a drawin is a natural number (an address in the heap), an
X window id is a natural number with `0` standing for `XCB_NONE`.

Calls that touch none of the modelled state are left out of the bodies:
`client_ignore_enterleave_events`, `client_restore_enterleave_events`,
`stack_windows`, `cairo_surface_flush`, and the window properties set at the
end of `drawin_allocator`.  Emitting a signal is recorded in a log; the Lua
handlers that might be connected to it are not run.
-/

set_option autoImplicit false

/-! ## Data model -/

/-- Modelled from the spec: the declaration of `area_t` is in a header that is
not among the sources.  The spec describes a geometry as `x, y, width, height`.
The fields are 16 bits wide, `x` and `y` signed, `width` and `height` unsigned:
`drawin.c` hands `geometry.width` and `geometry.height` to the `uint16_t`
parameters of `drawin_refresh_pixmap_partial`, and the geometry of an X window
is 16 bits wide.  A field holds the integer it stands for; an `int` assigned to
a field goes through `to_int16_t` or `to_uint16_t`. -/
structure area_t where
  x : Int
  y : Int
  width : Int
  height : Int
deriving DecidableEq, Repr

/-- Conversion of an `int` to `int16_t`: the value modulo `2^16`, in the range
`-32768 .. 32767`. -/
def to_int16_t (v : Int) : Int :=
  (v + 32768) % 65536 - 32768

/-- Conversion of an `int` to `uint16_t`: the value modulo `2^16`, in the range
`0 .. 65535`. -/
def to_uint16_t (v : Int) : Int :=
  v % 65536

/-- Modelled from the spec: the macro `AREA_EQUAL` is defined in a header that
is not among the sources; two areas are equal when their four fields are. -/
def AREA_EQUAL (a b : area_t) : Bool :=
  a.x == b.x && a.y == b.y && a.width == b.width && a.height == b.height

/-- The part of a drawable that `drawin.c` reads: its pixmap (`0` is
`XCB_NONE`), the `refreshed` flag, its cairo surface (`0` is `NULL`) and the
geometry it was last given. -/
structure drawable_t where
  pixmap : Nat
  refreshed : Bool
  surface : Nat
  geometry : area_t
deriving DecidableEq, Repr

/-- The fields of `drawin_t` used by the functions below.  `drawable` is `none`
for a `NULL` pointer; `strut` holds the value of `strut_has_value(&w->strut)`. -/
structure drawin_t where
  window : Nat
  visible : Bool
  geometry : area_t
  geometry_dirty : Bool
  drawable : Option drawable_t
  border_width : Int
  strut : Bool
deriving DecidableEq, Repr

/-- The requests `drawin.c` sends over the X connection. -/
inductive xcb_request where
  | create_window (win : Nat) (g : area_t)
  | configure_window (win : Nat) (g : area_t)
  | map_window (win : Nat)
  | unmap_window (win : Nat)
  | copy_area (pixmap : Nat) (win : Nat) (x : Int) (y : Int) (w : Int) (h : Int)
deriving DecidableEq, Repr

/-- The X server as seen through `globalconf.connection`: the next id
`xcb_generate_id` hands out, the geometry last configured for each window,
whether each window is mapped, and the requests received so far, oldest
first. -/
structure xserver_t where
  next_id : Nat
  geom : Nat → area_t
  mapped : Nat → Bool
  requests : List xcb_request

/-- The object a signal is emitted on: a drawin, or the screen returned by
`screen_getbycoord x y`. -/
inductive lua_object where
  | drawin (p : Nat)
  | screen_at (x : Int) (y : Int)
deriving DecidableEq, Repr

/-- One call of `luaA_object_emit_signal`. -/
structure lua_signal where
  target : lua_object
  name : String
deriving DecidableEq, Repr

/-- The whole state: the drawins in the Lua heap (`objects`, the first
`nobjects` addresses are allocated), the array `globalconf.drawins`, the
references taken on each drawin with `luaA_object_ref_class`, the X server, and
the signals emitted so far, oldest first. -/
structure globalconf_t where
  objects : Nat → drawin_t
  nobjects : Nat
  drawins : List Nat
  refs : Nat → Int
  connection : xserver_t
  signals : List lua_signal

/-- The functions of `objects/drawable.c` that `drawin.c` calls; that file is
not among the sources, so they are parameters of the model. -/
structure drawable_class_t where
  drawable_allocator : drawable_t
  drawable_set_geometry : drawable_t → area_t → drawable_t

/-! ## X requests -/

def xcb_generate_id (c : xserver_t) : Nat × xserver_t :=
  (c.next_id, { c with next_id := c.next_id + 1 })

def xcb_create_window (c : xserver_t) (win : Nat) (g : area_t) : xserver_t :=
  { c with geom := Function.update c.geom win g,
           mapped := Function.update c.mapped win false,
           requests := c.requests ++ [xcb_request.create_window win g] }

def xcb_configure_window (c : xserver_t) (win : Nat) (g : area_t) : xserver_t :=
  { c with geom := Function.update c.geom win g,
           requests := c.requests ++ [xcb_request.configure_window win g] }

def xcb_map_window (c : xserver_t) (win : Nat) : xserver_t :=
  { c with mapped := Function.update c.mapped win true,
           requests := c.requests ++ [xcb_request.map_window win] }

def xcb_unmap_window (c : xserver_t) (win : Nat) : xserver_t :=
  { c with mapped := Function.update c.mapped win false,
           requests := c.requests ++ [xcb_request.unmap_window win] }

def xcb_copy_area (c : xserver_t) (pixmap win : Nat) (x y w h : Int) : xserver_t :=
  { c with requests := c.requests ++ [xcb_request.copy_area pixmap win x y w h] }

/-! ## Lua object helpers -/

def luaA_object_emit_signal (G : globalconf_t) (o : lua_object) (name : String) :
    globalconf_t :=
  { G with signals := G.signals ++ [{ target := o, name := name }] }

/-- Modelled from the spec: `luaA_object_ref_class` is not among the sources;
the spec calls it a reference count adjustment, here one more reference. -/
def luaA_object_ref_class (G : globalconf_t) (p : Nat) : globalconf_t :=
  { G with refs := Function.update G.refs p (G.refs p + 1) }

/-- Modelled from the spec: `luaA_object_unref` is not among the sources; the
spec calls it a reference count adjustment, here one reference less. -/
def luaA_object_unref (G : globalconf_t) (p : Nat) : globalconf_t :=
  { G with refs := Function.update G.refs p (G.refs p - 1) }

/-- Store `w` at address `p` of the heap. -/
def set_object (G : globalconf_t) (p : Nat) (w : drawin_t) : globalconf_t :=
  { G with objects := Function.update G.objects p w }

/-! ## objects/drawin.c -/

def drawin_update_drawing (D : drawable_class_t) (G : globalconf_t) (p : Nat) :
    globalconf_t :=
  let w := G.objects p
  set_object G p
    { w with drawable := w.drawable.map (fun d => D.drawable_set_geometry d w.geometry) }

def drawin_apply_moveresize (G : globalconf_t) (p : Nat) : globalconf_t :=
  let w := G.objects p
  if !w.geometry_dirty then G
  else
    let G1 := set_object G p { w with geometry_dirty := false }
    { G1 with connection := xcb_configure_window G1.connection w.window w.geometry }

/-- The loop of `drawin_refresh` over `globalconf.drawins`. -/
def drawin_refresh_loop (G : globalconf_t) : List Nat → globalconf_t
  | [] => G
  | item :: rest => drawin_refresh_loop (drawin_apply_moveresize G item) rest

def drawin_refresh (G : globalconf_t) : globalconf_t :=
  drawin_refresh_loop G G.drawins

/-- The five conditional signals at the end of `drawin_moveresize`. -/
def drawin_moveresize_signals (G : globalconf_t) (p : Nat) (old new : area_t) :
    globalconf_t :=
  let G1 := if !AREA_EQUAL old new then
      luaA_object_emit_signal G (lua_object.drawin p) "property::geometry" else G
  let G2 := if old.x != new.x then
      luaA_object_emit_signal G1 (lua_object.drawin p) "property::x" else G1
  let G3 := if old.y != new.y then
      luaA_object_emit_signal G2 (lua_object.drawin p) "property::y" else G2
  let G4 := if old.width != new.width then
      luaA_object_emit_signal G3 (lua_object.drawin p) "property::width" else G3
  if old.height != new.height then
    luaA_object_emit_signal G4 (lua_object.drawin p) "property::height" else G4

def drawin_moveresize (D : drawable_class_t) (G : globalconf_t) (p : Nat)
    (geometry : area_t) : globalconf_t :=
  let w := G.objects p
  let old_geometry := w.geometry
  let g1 := geometry
  let g2 := if g1.width <= 0 then { g1 with width := old_geometry.width } else g1
  let g3 := if g2.height <= 0 then { g2 with height := old_geometry.height } else g2
  let G1 := set_object G p { w with geometry := g3, geometry_dirty := true }
  let G2 := drawin_update_drawing D G1 p
  drawin_moveresize_signals G2 p old_geometry (G2.objects p).geometry

def drawin_refresh_pixmap_partial (G : globalconf_t) (p : Nat) (x y w h : Int) :
    globalconf_t :=
  match (G.objects p).drawable with
  | none => G
  | some d =>
    if d.pixmap == 0 || !d.refreshed then G
    else
      let G1 := drawin_apply_moveresize G p
      { G1 with connection :=
          xcb_copy_area G1.connection d.pixmap (G1.objects p).window x y w h }

def drawin_refresh_pixmap (G : globalconf_t) (p : Nat) : globalconf_t :=
  drawin_refresh_pixmap_partial G p 0 0 (G.objects p).geometry.width
    (G.objects p).geometry.height

def drawin_map (D : drawable_class_t) (G : globalconf_t) (p : Nat) : globalconf_t :=
  let G1 := drawin_apply_moveresize G p
  let G2 := { G1 with connection := xcb_map_window G1.connection (G1.objects p).window }
  let G3 := { G2 with drawins := G2.drawins ++ [p] }
  match (G3.objects p).drawable with
  | none => G3
  | some d => if d.surface == 0 then drawin_update_drawing D G3 p else G3

def drawin_unmap (G : globalconf_t) (p : Nat) : globalconf_t :=
  let G1 := { G with connection := xcb_unmap_window G.connection (G.objects p).window }
  { G1 with drawins := G1.drawins.erase p }

/-- The loop of `drawin_getbywin` over `globalconf.drawins`. -/
def drawin_getbywin_loop (objects : Nat → drawin_t) (win : Nat) : List Nat → Option Nat
  | [] => none
  | w :: rest =>
    if (objects w).window == win then some w else drawin_getbywin_loop objects win rest

/-- The result is `none` for `NULL`; the state is returned next to it, as the
function received it. -/
def drawin_getbywin (G : globalconf_t) (win : Nat) : Option Nat × globalconf_t :=
  (drawin_getbywin_loop G.objects win G.drawins, G)

def drawin_set_visible (D : drawable_class_t) (G : globalconf_t) (p : Nat) (v : Bool) :
    globalconf_t :=
  if v != (G.objects p).visible then
    let G1 := set_object G p { G.objects p with visible := v }
    let G2 :=
      if (G1.objects p).visible then
        luaA_object_ref_class (drawin_map D G1 p) p
      else
        luaA_object_unref (drawin_unmap G1 p) p
    let G3 := luaA_object_emit_signal G2 (lua_object.drawin p) "property::visible"
    if (G3.objects p).strut then
      luaA_object_emit_signal G3
        (lua_object.screen_at (G3.objects p).geometry.x (G3.objects p).geometry.y)
        "property::workarea"
    else G3
  else G

/-- Modelled from the spec: `drawin_new` comes from the macro
`LUA_OBJECT_FUNCS`, which is not among the sources; a new object is allocated
at the next free address with every field zero. -/
def drawin_new (G : globalconf_t) : Nat × globalconf_t :=
  let w : drawin_t :=
    { window := 0, visible := false, geometry := { x := 0, y := 0, width := 0, height := 0 },
      geometry_dirty := false, drawable := none, border_width := 0, strut := false }
  (G.nobjects, { G with objects := Function.update G.objects G.nobjects w,
                        refs := Function.update G.refs G.nobjects 0,
                        nobjects := G.nobjects + 1 })

def drawin_allocator (D : drawable_class_t) (G : globalconf_t) : Nat × globalconf_t :=
  let (p, G1) := drawin_new G
  let w := G1.objects p
  let w1 := { w with visible := false,
                     geometry := { w.geometry with width := 1, height := 1 },
                     geometry_dirty := false }
  let w2 := { w1 with drawable := some D.drawable_allocator }
  let (win, c1) := xcb_generate_id G1.connection
  let w3 := { w2 with window := win }
  let c2 := xcb_create_window c1 w3.window w3.geometry
  (p, { set_object G1 p w3 with connection := c2 })

/-! ## The Lua interface of a drawin

A Lua C function either returns or raises an error with `luaL_error`, which
does not return to the caller.  The outcome is paired with the state at that
point. -/

/-- The table argument of `geometry`: each key is absent or holds an integer. -/
structure geometry_table where
  x : Option Int
  y : Option Int
  width : Option Int
  height : Option Int
deriving DecidableEq, Repr

/-- Modelled from the spec: `luaA_getopt_integer` is not among the sources; it
reads an integer key of a table and yields the default when the key is
absent. -/
def luaA_getopt_integer (field : Option Int) (default : Int) : Int :=
  field.getD default

/-- The argument `arg` is `none` when `geometry` is called without a table
(`lua_gettop(L) == 1`).  The value returned is the area pushed by
`luaA_pusharea`. -/
def luaA_drawin_geometry (D : drawable_class_t) (G : globalconf_t) (p : Nat)
    (arg : Option geometry_table) : Except String area_t × globalconf_t :=
  let drawin := G.objects p
  let G1 :=
    match arg with
    | some t =>
      let wingeom : area_t :=
        { x := to_int16_t (luaA_getopt_integer t.x drawin.geometry.x),
          y := to_int16_t (luaA_getopt_integer t.y drawin.geometry.y),
          width := to_uint16_t (luaA_getopt_integer t.width drawin.geometry.width),
          height := to_uint16_t (luaA_getopt_integer t.height drawin.geometry.height) }
      if wingeom.width > 0 && wingeom.height > 0 then drawin_moveresize D G p wingeom
      else G
    | none => G
  (Except.ok (G1.objects p).geometry, G1)

/-- The argument `v` of a setter is the `int` that `luaA_checkinteger` returns;
the fields of the `area_t` literal hold it in 16 bits. -/
def luaA_drawin_set_x (D : drawable_class_t) (G : globalconf_t) (p : Nat) (v : Int) :
    Except String Nat × globalconf_t :=
  let drawin := G.objects p
  (Except.ok 0, drawin_moveresize D G p
    { x := to_int16_t v, y := drawin.geometry.y,
      width := drawin.geometry.width, height := drawin.geometry.height })

def luaA_drawin_set_y (D : drawable_class_t) (G : globalconf_t) (p : Nat) (v : Int) :
    Except String Nat × globalconf_t :=
  let drawin := G.objects p
  (Except.ok 0, drawin_moveresize D G p
    { x := drawin.geometry.x, y := to_int16_t v,
      width := drawin.geometry.width, height := drawin.geometry.height })

def luaA_drawin_set_width (D : drawable_class_t) (G : globalconf_t) (p : Nat) (v : Int) :
    Except String Nat × globalconf_t :=
  let drawin := G.objects p
  let width := v
  if width <= 0 then (Except.error "invalid width", G)
  else
    (Except.ok 0, drawin_moveresize D G p
      { x := drawin.geometry.x, y := drawin.geometry.y,
        width := to_uint16_t width, height := drawin.geometry.height })

def luaA_drawin_set_height (D : drawable_class_t) (G : globalconf_t) (p : Nat) (v : Int) :
    Except String Nat × globalconf_t :=
  let drawin := G.objects p
  let height := v
  if height <= 0 then (Except.error "invalid height", G)
  else
    (Except.ok 0, drawin_moveresize D G p
      { x := drawin.geometry.x, y := drawin.geometry.y,
        width := drawin.geometry.width, height := to_uint16_t height })

def luaA_drawin_set_visible (D : drawable_class_t) (G : globalconf_t) (p : Nat) (v : Bool) :
    Except String Nat × globalconf_t :=
  (Except.ok 0, drawin_set_visible D G p v)

/-- The four geometry properties registered in `drawin_class_setup`. -/
inductive geometry_property where
  | x
  | y
  | width
  | height
deriving DecidableEq, Repr

/-- Assignment to a geometry property: `drawin_class_setup` registers
`luaA_drawin_set_x` for `x`, `luaA_drawin_set_y` for `y`,
`luaA_drawin_set_width` for `width` and `luaA_drawin_set_height` for
`height`. -/
def drawin_set_property (D : drawable_class_t) (G : globalconf_t) (p : Nat)
    (prop : geometry_property) (v : Int) : Except String Nat × globalconf_t :=
  match prop with
  | geometry_property.x => luaA_drawin_set_x D G p v
  | geometry_property.y => luaA_drawin_set_y D G p v
  | geometry_property.width => luaA_drawin_set_width D G p v
  | geometry_property.height => luaA_drawin_set_height D G p v

/-- The documentation of `geometry` read literally: every key present in the
table is assigned to the property of the same name, in the order `x`, `y`,
`width`, `height`; an assignment that raises an error ends the sequence. -/
def assign_properties (D : drawable_class_t) (G : globalconf_t) (p : Nat)
    (t : geometry_table) : Except String Nat × globalconf_t :=
  let r1 := match t.x with
    | some v => luaA_drawin_set_x D G p v
    | none => (Except.ok 0, G)
  let r2 := match r1.1, t.y with
    | Except.ok _, some v => luaA_drawin_set_y D r1.2 p v
    | _, _ => r1
  let r3 := match r2.1, t.width with
    | Except.ok _, some v => luaA_drawin_set_width D r2.2 p v
    | _, _ => r2
  match r3.1, t.height with
  | Except.ok _, some v => luaA_drawin_set_height D r3.2 p v
  | _, _ => r3

/-! ## screen.c -/

/-- Modelled from the spec: the enumeration of status bar positions is declared
in a header that is not among the sources; `screen.c` names `BarTop` and
`BarBot`, every other value is `BarOther`. -/
inductive Position where
  | BarTop
  | BarBot
  | BarOther (tag : Nat)
deriving DecidableEq, Repr

structure Statusbar where
  position : Position
  height : Int
deriving DecidableEq, Repr

/-- Modelled from the spec: `ScreenInfo` is declared in a header that is not
among the sources; the spec calls it a plain rectangle, origin and size, and the
four fields are integers. -/
structure ScreenInfo where
  x_org : Int
  y_org : Int
  width : Int
  height : Int
deriving DecidableEq, Repr

/-- What `screen.c` asks of a display: `xinerama` is `none` when
`XineramaIsActive` is false and otherwise the array `XineramaQueryScreens`
returns (its length is the number it stores through the pointer);
`DisplayWidth`, `DisplayHeight` and `ScreenCount` are the Xlib macros. -/
structure Display where
  xinerama : Option (List ScreenInfo)
  DisplayWidth : Nat → Int
  DisplayHeight : Nat → Int
  ScreenCount : Nat

/-- Modelled from the spec: `p_new` is a macro of a header that is not among the
sources; it allocates `count` zeroed elements. -/
def p_new_ScreenInfo (count : Nat) : List ScreenInfo :=
  List.replicate count { x_org := 0, y_org := 0, width := 0, height := 0 }

/-- The body of the loop of `get_screen_info` for the entry `s`. -/
def get_screen_info_body (statusbar : Statusbar) (s : ScreenInfo) : ScreenInfo :=
  let s1 :=
    if statusbar.position = Position.BarTop ∨ statusbar.position = Position.BarBot then
      { s with height := s.height - statusbar.height }
    else s
  if statusbar.position = Position.BarTop then
    { s1 with y_org := s1.y_org + statusbar.height }
  else s1

/-- Assignment to `si[i]`; an index outside the array leaves it as it is. -/
def ScreenInfo_store (si : List ScreenInfo) (i : Nat) (f : ScreenInfo → ScreenInfo) :
    List ScreenInfo :=
  match si[i]? with
  | some s => si.set i (f s)
  | none => si

/-- The loop `for(i = 0; i < fake_screen_number; i++)`, with `n` the number of
iterations left: `n = fake_screen_number - i`. -/
def get_screen_info_loop (statusbar : Statusbar) : Nat → Nat → List ScreenInfo →
    List ScreenInfo
  | 0, _, si => si
  | n + 1, i, si =>
    get_screen_info_loop statusbar n (i + 1)
      (ScreenInfo_store si i (get_screen_info_body statusbar))

/-- The pair returned is the array `si` and the value stored in
`*screen_number`. -/
def get_screen_info (disp : Display) (screen : Nat) (statusbar : Statusbar) :
    List ScreenInfo × Nat :=
  match disp.xinerama with
  | some screens =>
    let si := screens
    let screen_number := screens.length
    let fake_screen_number := screen_number
    (get_screen_info_loop statusbar fake_screen_number 0 si, screen_number)
  | none =>
    let screen_number := 1
    let si0 := p_new_ScreenInfo (screen + 1)
    let si1 := ScreenInfo_store si0 screen (fun s => { s with width := disp.DisplayWidth screen })
    let si2 := ScreenInfo_store si1 screen (fun s => { s with height := disp.DisplayHeight screen })
    let si3 := ScreenInfo_store si2 screen (fun s => { s with x_org := 0 })
    let si4 := ScreenInfo_store si3 screen (fun s => { s with y_org := 0 })
    let fake_screen_number := screen + 1
    (get_screen_info_loop statusbar fake_screen_number 0 si4, screen_number)

/-- The fields of `Client` that `screen.c` reads: `display`, the address of the
display of the client.  `addr` is the address of the structure itself, which
tells two clients apart; the list `clients` is the chain of the `next`
pointers. -/
structure Client where
  addr : Nat
  display : Nat
deriving DecidableEq, Repr

/-- The fields of `awesome_config` that `screen.c` reads; `tags` is the pointer
to the tags of the screen. -/
structure awesome_config where
  screen : Int
  tags : Nat
  ntags : Int
deriving DecidableEq, Repr

/-- A call of `focus` or of `restack`, with its arguments.  The pointers
`&drawcontext[k]` and `&awesomeconf[k]` are given by the index of the entry they
point at, in the array of draw contexts and in the array of configurations. -/
inductive screen_call where
  | focus (display : Nat) (drawcontext : Int) (c : Client) (selscreen : Bool)
      (awesomeconf : Int)
  | restack (display : Nat) (drawcontext : Int) (awesomeconf : Int)
deriving DecidableEq, Repr

/-- The loop `for(c = clients; c && !isvisible(c, screen, tags, ntags); c = c->next)`;
the result is the value of `c` when the loop ends, `none` for `NULL`.
`isvisible` is defined in a file that is not among the sources and is a
parameter. -/
def uicb_focus_loop (isvisible : Client → Int → Nat → Int → Bool) (screen : Int)
    (tags : Nat) (ntags : Int) : List Client → Option Client
  | [] => none
  | c :: next =>
    if !isvisible c screen tags ntags then uicb_focus_loop isvisible screen tags ntags next
    else some c

/-- The pointer `awesomeconf` points at the entry `awesomeconf` of the array
`confs` and the pointer `drawcontext` at the entry `drawcontext` of the array of
draw contexts; the result is the list of the calls of `focus` and `restack`
made, in order. -/
def uicb_focusnextscreen (isvisible : Client → Int → Nat → Int → Bool)
    (clients : List Client) (disp : Display) (confs : Int → awesome_config)
    (drawcontext : Int) (awesomeconf : Int) : List screen_call :=
  let next_screen : Int :=
    if (confs awesomeconf).screen + 1 >= (disp.ScreenCount : Int) then 0
    else (confs awesomeconf).screen + 1
  let k := next_screen - (confs awesomeconf).screen
  match uicb_focus_loop isvisible next_screen (confs (awesomeconf + k)).tags
      (confs (awesomeconf + k)).ntags clients with
  | some c =>
    [screen_call.focus c.display (drawcontext + k) c true (awesomeconf + k),
     screen_call.restack c.display (drawcontext + k) (awesomeconf + k)]
  | none => []

def uicb_focusprevscreen (isvisible : Client → Int → Nat → Int → Bool)
    (clients : List Client) (disp : Display) (confs : Int → awesome_config)
    (drawcontext : Int) (awesomeconf : Int) : List screen_call :=
  let prev_screen : Int :=
    if (confs awesomeconf).screen - 1 < 0 then (disp.ScreenCount : Int) - 1
    else (confs awesomeconf).screen - 1
  let k := prev_screen - (confs awesomeconf).screen
  match uicb_focus_loop isvisible prev_screen (confs (awesomeconf + k)).tags
      (confs (awesomeconf + k)).ntags clients with
  | some c =>
    [screen_call.focus c.display (drawcontext + k) c true (awesomeconf + k),
     screen_call.restack c.display (drawcontext + k) (awesomeconf + k)]
  | none => []

/-! ## Reachable states -/

/-- The state before any drawin is allocated, over an X server `c`. -/
def globalconf_init (c : xserver_t) : globalconf_t :=
  { objects := fun _ =>
      { window := 0, visible := false, geometry := { x := 0, y := 0, width := 0, height := 0 },
        geometry_dirty := false, drawable := none, border_width := 0, strut := false },
    nobjects := 0,
    drawins := [],
    refs := fun _ => 0,
    connection := c,
    signals := [] }

/-- The drawable of the drawin at `p` is changed from outside `drawin.c` (the
drawable is a Lua object of its own, with its own methods). -/
def drawable_changed (G : globalconf_t) (p : Nat) (d : drawable_t) : globalconf_t :=
  set_object G p { G.objects p with drawable := some d }

/-- The states reached from `drawin_allocator` through `drawin_moveresize`,
`drawin_apply_moveresize`, `drawin_map` and `drawin_refresh_pixmap_partial`,
each applied to an allocated drawin; the drawable of a drawin may change in
between. -/
inductive geometry_reachable (D : drawable_class_t) : globalconf_t → Prop where
  | init (c : xserver_t) : geometry_reachable D (globalconf_init c)
  | allocator (G : globalconf_t) :
      geometry_reachable D G → geometry_reachable D (drawin_allocator D G).2
  | moveresize (G : globalconf_t) (p : Nat) (g : area_t) :
      geometry_reachable D G → p < G.nobjects →
      geometry_reachable D (drawin_moveresize D G p g)
  | apply_moveresize (G : globalconf_t) (p : Nat) :
      geometry_reachable D G → p < G.nobjects →
      geometry_reachable D (drawin_apply_moveresize G p)
  | map (G : globalconf_t) (p : Nat) :
      geometry_reachable D G → p < G.nobjects →
      geometry_reachable D (drawin_map D G p)
  | refresh (G : globalconf_t) (p : Nat) (x y w h : Int) :
      geometry_reachable D G → p < G.nobjects →
      geometry_reachable D ( drawin_refresh_pixmap_partial G p x y w h)
  | drawable (G : globalconf_t) (p : Nat) (d : drawable_t) :
      geometry_reachable D G → p < G.nobjects →
      geometry_reachable D (drawable_changed G p d)

/-- The states reached from freshly allocated drawins by calls of
`drawin_set_visible` on allocated drawins. -/
inductive visible_reachable (D : drawable_class_t) : globalconf_t → Prop where
  | init (c : xserver_t) : visible_reachable D (globalconf_init c)
  | allocator (G : globalconf_t) :
      visible_reachable D G → visible_reachable D (drawin_allocator D G).2
  | set_visible (G : globalconf_t) (p : Nat) (v : Bool) :
      visible_reachable D G → p < G.nobjects →
      visible_reachable D (drawin_set_visible D G p v)

/-- The states reached from `drawin_allocator` through `drawin_moveresize`,
`luaA_drawin_geometry` and the setters of `x`, `y`, `width` and `height`, each
applied to an allocated drawin with any argument. -/
inductive size_reachable (D : drawable_class_t) : globalconf_t → Prop where
  | init (c : xserver_t) : size_reachable D (globalconf_init c)
  | allocator (G : globalconf_t) :
      size_reachable D G → size_reachable D (drawin_allocator D G).2
  | moveresize (G : globalconf_t) (p : Nat) (g : area_t) :
      size_reachable D G → p < G.nobjects →
      size_reachable D (drawin_moveresize D G p g)
  | geometry (G : globalconf_t) (p : Nat) (arg : Option geometry_table) :
      size_reachable D G → p < G.nobjects →
      size_reachable D (luaA_drawin_geometry D G p arg).2
  | set_property (G : globalconf_t) (p : Nat) (prop : geometry_property) (v : Int) :
      size_reachable D G → p < G.nobjects →
      size_reachable D (drawin_set_property D G p prop v).2

/-! ## Closed forms and invariants used in the proofs -/

/-- The area `drawin_moveresize` stores when the drawin has the geometry `old`
and the request is `g`. -/
def drawin_moveresize_area (old g : area_t) : area_t :=
  { x := g.x, y := g.y,
    width := if g.width <= 0 then old.width else g.width,
    height := if g.height <= 0 then old.height else g.height }

/-- The area `luaA_drawin_geometry` hands to `drawin_moveresize` for the table
`t` when the drawin has the geometry `cur`. -/
def geometry_table_merge (cur : area_t) (t : geometry_table) : area_t :=
  { x := to_int16_t (luaA_getopt_integer t.x cur.x),
    y := to_int16_t (luaA_getopt_integer t.y cur.y),
    width := to_uint16_t (luaA_getopt_integer t.width cur.width),
    height := to_uint16_t (luaA_getopt_integer t.height cur.height) }

/-- Every allocated drawin has a window of its own, handed out by
`xcb_generate_id`, and while no move or resize is pending the window is
configured with the geometry of the drawin. -/
def geometry_inv (G : globalconf_t) : Prop :=
  ∀ p, p < G.nobjects →
    ((G.objects p).geometry_dirty = false →
      G.connection.geom (G.objects p).window = (G.objects p).geometry)
    ∧ (G.objects p).window < G.connection.next_id
    ∧ ∀ q, q < G.nobjects → (G.objects q).window = (G.objects p).window → q = p

/-- Every allocated drawin has a window of its own; it is in the array of
visible drawins once when it is visible and not at all otherwise, holds one
reference exactly when it is visible, and its window is mapped exactly when it
is visible.  The array holds allocated drawins only. -/
def visible_inv (G : globalconf_t) : Prop :=
  (∀ p, p ∈ G.drawins → p < G.nobjects) ∧
  ∀ p, p < G.nobjects →
    G.drawins.count p = (if (G.objects p).visible then 1 else 0)
    ∧ G.refs p = (if (G.objects p).visible then 1 else 0)
    ∧ G.connection.mapped (G.objects p).window = (G.objects p).visible
    ∧ (G.objects p).window < G.connection.next_id
    ∧ ∀ q, q < G.nobjects → (G.objects q).window = (G.objects p).window → q = p

/-- Every allocated drawin has a positive width and a positive height. -/
def size_inv (G : globalconf_t) : Prop :=
  ∀ p, p < G.nobjects →
    0 < (G.objects p).geometry.width ∧ 0 < (G.objects p).geometry.height

/-! ## Concrete inputs -/

/-- An X server that has received nothing yet. -/
def xserver_empty : xserver_t :=
  { next_id := 1,
    geom := fun _ => { x := 0, y := 0, width := 0, height := 0 },
    mapped := fun _ => false,
    requests := [] }

/-- A drawable class whose new drawables have no pixmap and whose
`drawable_set_geometry` records the geometry and gives the drawable a pixmap
and a surface. -/
def drawable_class_sample : drawable_class_t :=
  { drawable_allocator :=
      { pixmap := 0, refreshed := false, surface := 0,
        geometry := { x := 0, y := 0, width := 0, height := 0 } },
    drawable_set_geometry := fun d g => { d with pixmap := 7, surface := 9, geometry := g } }

/-- One drawin, just allocated. -/
def globalconf_one : globalconf_t :=
  (drawin_allocator drawable_class_sample (globalconf_init xserver_empty)).2

/-- A drawable with a pixmap and a surface that has been refreshed. -/
def drawable_refreshed : drawable_t :=
  { pixmap := 7, refreshed := true, surface := 9,
    geometry := { x := 0, y := 0, width := 1, height := 1 } }

/-- One drawin whose drawable has been refreshed and which has been moved and
resized since, the request to the X server being still pending. -/
def globalconf_pending : globalconf_t :=
  drawin_moveresize drawable_class_sample (drawable_changed globalconf_one 0 drawable_refreshed) 0
    { x := 5, y := 6, width := 20, height := 30 }

/-- One drawin, allocated and then made visible. -/
def globalconf_shown : globalconf_t :=
  drawin_set_visible drawable_class_sample globalconf_one 0 true

/-- Two drawins with the windows 1 and 2, the second made visible before the
first. -/
def globalconf_two : globalconf_t :=
  drawin_set_visible drawable_class_sample
    (drawin_set_visible drawable_class_sample
      (drawin_allocator drawable_class_sample globalconf_one).2 1 true) 0 true

/-- A display without Xinerama, with two X screens of 1280x1024 and
1024x768. -/
def display_single : Display :=
  { xinerama := none,
    DisplayWidth := fun s => if s = 0 then 1280 else 1024,
    DisplayHeight := fun s => if s = 0 then 1024 else 768,
    ScreenCount := 2 }

/-- A display on which Xinerama reports two screens side by side. -/
def display_xinerama : Display :=
  { xinerama := some [{ x_org := 0, y_org := 0, width := 800, height := 600 },
                      { x_org := 800, y_org := 0, width := 1024, height := 768 }],
    DisplayWidth := fun _ => 1824,
    DisplayHeight := fun _ => 768,
    ScreenCount := 1 }

/-- Four clients on the display at address 1. -/
def clients_sample : List Client :=
  [{ addr := 10, display := 1 }, { addr := 11, display := 1 }, { addr := 13, display := 1 },
   { addr := 14, display := 1 }]

/-- The configurations of the screens, the entry `i` being that of the screen
`i`, with its tags at the address `100 + i`. -/
def confs_sample : Int → awesome_config :=
  fun i => { screen := i, tags := 100 + i.toNat, ntags := 9 }

/-- A client is visible on the screen whose number is its address modulo 3. -/
def isvisible_sample (c : Client) (screen : Int) (_tags : Nat) (_ntags : Int) : Bool :=
  decide ((c.addr : Int) % 3 = screen)

/-- A display with three X screens. -/
def display_three : Display :=
  { xinerama := none,
    DisplayWidth := fun _ => 1024,
    DisplayHeight := fun _ => 768,
    ScreenCount := 3 }

/-- One drawin that was asked for the size -3 by 25 at (4, 5) after its
allocation. -/
def globalconf_resized : globalconf_t :=
  drawin_moveresize drawable_class_sample globalconf_one 0
    { x := 4, y := 5, width := -3, height := 25 }

/-! ## Effect of each function on the state -/

section effects

variable (D : drawable_class_t) (G : globalconf_t) (p q : Nat)

theorem set_object_self (w : drawin_t) : (set_object G p w).objects p = w := by
  simp [set_object]

theorem set_object_ne (w : drawin_t) (h : q ≠ p) : (set_object G p w).objects q = G.objects q := by
  simp [set_object, Function.update_noteq h]

/-! ### drawin_update_drawing -/

theorem update_drawing_self : (drawin_update_drawing D G p).objects p =
    { G.objects p with drawable :=
        (G.objects p).drawable.map (fun d => D.drawable_set_geometry d (G.objects p).geometry) } := by
  simp [drawin_update_drawing, set_object]

theorem update_drawing_ne (h : q ≠ p) : (drawin_update_drawing D G p).objects q = G.objects q := by
  simp [drawin_update_drawing, set_object, Function.update_noteq h]

/-! ### drawin_apply_moveresize -/

theorem apply_moveresize_self : (drawin_apply_moveresize G p).objects p =
    { G.objects p with geometry_dirty := false } := by
  unfold drawin_apply_moveresize
  by_cases hd : (G.objects p).geometry_dirty = true
  · simp [hd, set_object]
  · have hf : (G.objects p).geometry_dirty = false := by simpa using hd
    simp only [hf, Bool.not_false, if_true]
    cases hw : G.objects p
    rw [hw] at hf
    simp_all

theorem apply_moveresize_ne (h : q ≠ p) :
    (drawin_apply_moveresize G p).objects q = G.objects q := by
  unfold drawin_apply_moveresize
  by_cases hd : (G.objects p).geometry_dirty = true
  · simp [hd, set_object, Function.update_noteq h]
  · simp [hd]

theorem apply_moveresize_nobjects : (drawin_apply_moveresize G p).nobjects = G.nobjects := by
  unfold drawin_apply_moveresize
  by_cases hd : (G.objects p).geometry_dirty = true <;> simp [hd, set_object]

theorem apply_moveresize_drawins : (drawin_apply_moveresize G p).drawins = G.drawins := by
  unfold drawin_apply_moveresize
  by_cases hd : (G.objects p).geometry_dirty = true <;> simp [hd, set_object]

theorem apply_moveresize_refs : (drawin_apply_moveresize G p).refs = G.refs := by
  unfold drawin_apply_moveresize
  by_cases hd : (G.objects p).geometry_dirty = true <;> simp [hd, set_object]

theorem apply_moveresize_signals : (drawin_apply_moveresize G p).signals = G.signals := by
  unfold drawin_apply_moveresize
  by_cases hd : (G.objects p).geometry_dirty = true <;> simp [hd, set_object]

theorem apply_moveresize_connection : (drawin_apply_moveresize G p).connection =
    if (G.objects p).geometry_dirty = true then
      xcb_configure_window G.connection (G.objects p).window (G.objects p).geometry
    else G.connection := by
  unfold drawin_apply_moveresize
  by_cases hd : (G.objects p).geometry_dirty = true <;> simp [hd, set_object]

theorem apply_moveresize_next_id :
    (drawin_apply_moveresize G p).connection.next_id = G.connection.next_id := by
  rw [apply_moveresize_connection]
  split_ifs <;> simp [xcb_configure_window]

theorem apply_moveresize_mapped :
    (drawin_apply_moveresize G p).connection.mapped = G.connection.mapped := by
  rw [apply_moveresize_connection]
  split_ifs <;> simp [xcb_configure_window]

theorem apply_moveresize_geom (win : Nat) :
    (drawin_apply_moveresize G p).connection.geom win =
      if (G.objects p).geometry_dirty = true ∧ win = (G.objects p).window then
        (G.objects p).geometry
      else G.connection.geom win := by
  rw [apply_moveresize_connection]
  by_cases hd : (G.objects p).geometry_dirty = true <;>
    by_cases hw : win = (G.objects p).window <;>
    simp [hd, hw, xcb_configure_window, Function.update_apply]

theorem apply_moveresize_requests :
    (drawin_apply_moveresize G p).connection.requests =
      G.connection.requests ++
        (if (G.objects p).geometry_dirty = true then
          [xcb_request.configure_window (G.objects p).window (G.objects p).geometry]
        else []) := by
  rw [apply_moveresize_connection]
  split_ifs <;> simp [xcb_configure_window]

end effects

section effects_moveresize

variable (D : drawable_class_t) (G : globalconf_t) (p q : Nat)

/-! ### drawin_moveresize -/

theorem moveresize_signals_objects (old new : area_t) :
    (drawin_moveresize_signals G p old new).objects = G.objects := by
  unfold drawin_moveresize_signals
  simp only []
  split_ifs <;> rfl

theorem moveresize_signals_nobjects (old new : area_t) :
    (drawin_moveresize_signals G p old new).nobjects = G.nobjects := by
  unfold drawin_moveresize_signals
  simp only []
  split_ifs <;> rfl

theorem moveresize_signals_drawins (old new : area_t) :
    (drawin_moveresize_signals G p old new).drawins = G.drawins := by
  unfold drawin_moveresize_signals
  simp only []
  split_ifs <;> rfl

theorem moveresize_signals_refs (old new : area_t) :
    (drawin_moveresize_signals G p old new).refs = G.refs := by
  unfold drawin_moveresize_signals
  simp only []
  split_ifs <;> rfl

theorem moveresize_signals_connection (old new : area_t) :
    (drawin_moveresize_signals G p old new).connection = G.connection := by
  unfold drawin_moveresize_signals
  simp only []
  split_ifs <;> rfl

theorem moveresize_area_eq (old g : area_t) :
    (if (if g.width ≤ 0 then { g with width := old.width } else g).height ≤ 0 then
      { (if g.width ≤ 0 then { g with width := old.width } else g) with height := old.height }
     else (if g.width ≤ 0 then { g with width := old.width } else g)) =
    drawin_moveresize_area old g := by
  unfold drawin_moveresize_area
  by_cases hw : g.width ≤ 0 <;> by_cases hh : g.height ≤ 0 <;> simp [hw, hh]

theorem moveresize_self (g : area_t) : (drawin_moveresize D G p g).objects p =
    { G.objects p with
        geometry := drawin_moveresize_area (G.objects p).geometry g,
        geometry_dirty := true,
        drawable := (G.objects p).drawable.map
          (fun d => D.drawable_set_geometry d (drawin_moveresize_area (G.objects p).geometry g)) } := by
  unfold drawin_moveresize
  simp only [moveresize_signals_objects, moveresize_area_eq]
  simp [drawin_update_drawing, set_object]

theorem moveresize_ne (g : area_t) (h : q ≠ p) :
    (drawin_moveresize D G p g).objects q = G.objects q := by
  unfold drawin_moveresize
  simp only [moveresize_signals_objects]
  simp [drawin_update_drawing, set_object, Function.update_noteq h]

theorem moveresize_nobjects (g : area_t) : (drawin_moveresize D G p g).nobjects = G.nobjects := by
  unfold drawin_moveresize
  simp only [moveresize_signals_nobjects]
  simp [drawin_update_drawing, set_object]

theorem moveresize_drawins (g : area_t) : (drawin_moveresize D G p g).drawins = G.drawins := by
  unfold drawin_moveresize
  simp only [moveresize_signals_drawins]
  simp [drawin_update_drawing, set_object]

theorem moveresize_refs (g : area_t) : (drawin_moveresize D G p g).refs = G.refs := by
  unfold drawin_moveresize
  simp only [moveresize_signals_refs]
  simp [drawin_update_drawing, set_object]

theorem moveresize_connection (g : area_t) :
    (drawin_moveresize D G p g).connection = G.connection := by
  unfold drawin_moveresize
  simp only [moveresize_signals_connection]
  simp [drawin_update_drawing, set_object]

end effects_moveresize

section effects_refresh

variable (D : drawable_class_t) (G : globalconf_t) (p q : Nat)

/-! ### drawin_refresh_pixmap_partial -/

/-- The test at the head of `drawin_refresh_pixmap_partial` lets the copy
through. -/
theorem refresh_issued (x y w h : Int) (d : drawable_t)
    (hd : (G.objects p).drawable = some d) (hp : d.pixmap ≠ 0) (hr : d.refreshed = true) :
    drawin_refresh_pixmap_partial G p x y w h =
      { drawin_apply_moveresize G p with
        connection := xcb_copy_area (drawin_apply_moveresize G p).connection d.pixmap
          ((drawin_apply_moveresize G p).objects p).window x y w h } := by
  unfold drawin_refresh_pixmap_partial
  simp [hd, hp, hr]

theorem refresh_cases (x y w h : Int) :
    drawin_refresh_pixmap_partial G p x y w h = G ∨
    ∃ pixmap, drawin_refresh_pixmap_partial G p x y w h =
      { drawin_apply_moveresize G p with
        connection := xcb_copy_area (drawin_apply_moveresize G p).connection pixmap
          ((drawin_apply_moveresize G p).objects p).window x y w h } := by
  unfold drawin_refresh_pixmap_partial
  cases hd : (G.objects p).drawable with
  | none => left; rfl
  | some d =>
    by_cases hg : (d.pixmap == 0 || !d.refreshed) = true
    · left; simp only [hg, if_true]
    · right; exact ⟨d.pixmap, by simp only [hg]; rfl⟩

/-! ### drawin_map -/

theorem map_self : (drawin_map D G p).objects p =
    { G.objects p with
        geometry_dirty := false,
        drawable := match (G.objects p).drawable with
          | none => none
          | some d => if d.surface = 0 then
              some (D.drawable_set_geometry d (G.objects p).geometry) else some d } := by
  unfold drawin_map
  simp only [apply_moveresize_self]
  cases hd : (G.objects p).drawable with
  | none => simp [apply_moveresize_self, hd]
  | some d =>
    by_cases hs : d.surface = 0
    · simp [hs, update_drawing_self, apply_moveresize_self, hd, drawin_update_drawing, set_object]
    · simp [hs, apply_moveresize_self, hd]

theorem map_ne (h : q ≠ p) : (drawin_map D G p).objects q = G.objects q := by
  unfold drawin_map
  simp only [apply_moveresize_self]
  cases hd : (G.objects p).drawable with
  | none => simp [apply_moveresize_ne _ _ _ h]
  | some d =>
    by_cases hs : d.surface = 0
    · simp [hs, drawin_update_drawing, set_object, Function.update_noteq h,
        apply_moveresize_ne _ _ _ h]
    · simp [hs, apply_moveresize_ne _ _ _ h]

theorem map_nobjects : (drawin_map D G p).nobjects = G.nobjects := by
  unfold drawin_map
  simp only [apply_moveresize_self]
  cases hd : (G.objects p).drawable with
  | none => simp [apply_moveresize_nobjects]
  | some d =>
    by_cases hs : d.surface = 0 <;>
      simp [hs, drawin_update_drawing, set_object, apply_moveresize_nobjects]

theorem map_drawins : (drawin_map D G p).drawins = G.drawins ++ [p] := by
  unfold drawin_map
  simp only [apply_moveresize_self]
  cases hd : (G.objects p).drawable with
  | none => simp [apply_moveresize_drawins]
  | some d =>
    by_cases hs : d.surface = 0 <;>
      simp [hs, drawin_update_drawing, set_object, apply_moveresize_drawins]

theorem map_refs : (drawin_map D G p).refs = G.refs := by
  unfold drawin_map
  simp only [apply_moveresize_self]
  cases hd : (G.objects p).drawable with
  | none => simp [apply_moveresize_refs]
  | some d =>
    by_cases hs : d.surface = 0 <;>
      simp [hs, drawin_update_drawing, set_object, apply_moveresize_refs]

theorem map_signals : (drawin_map D G p).signals = G.signals := by
  unfold drawin_map
  simp only [apply_moveresize_self]
  cases hd : (G.objects p).drawable with
  | none => simp [apply_moveresize_signals]
  | some d =>
    by_cases hs : d.surface = 0 <;>
      simp [hs, drawin_update_drawing, set_object, apply_moveresize_signals]

theorem map_connection : (drawin_map D G p).connection =
    xcb_map_window (drawin_apply_moveresize G p).connection (G.objects p).window := by
  unfold drawin_map
  simp only [apply_moveresize_self]
  cases hd : (G.objects p).drawable with
  | none => simp
  | some d =>
    by_cases hs : d.surface = 0 <;>
      simp [hs, drawin_update_drawing, set_object]

/-! ### drawin_unmap -/

theorem unmap_objects : (drawin_unmap G p).objects = G.objects := rfl

theorem unmap_nobjects : (drawin_unmap G p).nobjects = G.nobjects := rfl

theorem unmap_drawins : (drawin_unmap G p).drawins = G.drawins.erase p := rfl

theorem unmap_refs : (drawin_unmap G p).refs = G.refs := rfl

theorem unmap_signals : (drawin_unmap G p).signals = G.signals := rfl

theorem unmap_connection : (drawin_unmap G p).connection =
    xcb_unmap_window G.connection (G.objects p).window := rfl

end effects_refresh

section effects_allocator

variable (D : drawable_class_t) (G : globalconf_t) (p q : Nat)

/-! ### drawin_allocator -/

theorem allocator_fst : (drawin_allocator D G).1 = G.nobjects := rfl

theorem allocator_self : (drawin_allocator D G).2.objects G.nobjects =
    { window := G.connection.next_id, visible := false,
      geometry := { x := 0, y := 0, width := 1, height := 1 },
      geometry_dirty := false, drawable := some D.drawable_allocator,
      border_width := 0, strut := false } := by
  simp [drawin_allocator, drawin_new, set_object, xcb_generate_id]

theorem allocator_ne (h : q ≠ G.nobjects) :
    (drawin_allocator D G).2.objects q = G.objects q := by
  simp [drawin_allocator, drawin_new, set_object, xcb_generate_id, Function.update_noteq h]

theorem allocator_nobjects : (drawin_allocator D G).2.nobjects = G.nobjects + 1 := rfl

theorem allocator_drawins : (drawin_allocator D G).2.drawins = G.drawins := rfl

theorem allocator_refs : (drawin_allocator D G).2.refs = Function.update G.refs G.nobjects 0 := rfl

theorem allocator_signals : (drawin_allocator D G).2.signals = G.signals := rfl

theorem allocator_connection : (drawin_allocator D G).2.connection =
    xcb_create_window { G.connection with next_id := G.connection.next_id + 1 }
      G.connection.next_id { x := 0, y := 0, width := 1, height := 1 } := by
  simp [drawin_allocator, drawin_new, set_object, xcb_generate_id]

/-! ### drawable_changed -/

theorem drawable_changed_self (d : drawable_t) :
    (drawable_changed G p d).objects p = { G.objects p with drawable := some d } := by
  simp [drawable_changed, set_object]

theorem drawable_changed_ne (d : drawable_t) (h : q ≠ p) :
    (drawable_changed G p d).objects q = G.objects q := by
  simp [drawable_changed, set_object, Function.update_noteq h]

end effects_allocator

/-! ## The window geometry invariant -/

theorem geometry_inv_init (c : xserver_t) : geometry_inv (globalconf_init c) := by
  intro p hp
  simp [globalconf_init] at hp

/-- A step that leaves the windows, the geometry and the X server as they are,
and does not clear a dirty flag, keeps the invariant. -/
theorem geometry_inv_frame (G G1 : globalconf_t) (h : geometry_inv G)
    (hn : G1.nobjects = G.nobjects)
    (hc : G1.connection.geom = G.connection.geom)
    (hi : G1.connection.next_id = G.connection.next_id)
    (hw : ∀ q, (G1.objects q).window = (G.objects q).window)
    (hg : ∀ q, (G1.objects q).geometry_dirty = false →
      (G.objects q).geometry_dirty = false ∧ (G1.objects q).geometry = (G.objects q).geometry) :
    geometry_inv G1 := by
  intro q hq
  rw [hn] at hq
  obtain ⟨h1, h2, h3⟩ := h q hq
  refine ⟨?_, ?_, ?_⟩
  · intro hd
    obtain ⟨hd0, hge⟩ := hg q hd
    rw [hc, hw, hge]
    exact h1 hd0
  · rw [hw, hi]; exact h2
  · intro r hr hrw
    rw [hn] at hr
    rw [hw, hw] at hrw
    exact h3 r hr hrw

theorem geometry_inv_apply_moveresize (G : globalconf_t) (p : Nat) (hp : p < G.nobjects)
    (h : geometry_inv G) : geometry_inv (drawin_apply_moveresize G p) := by
  intro q hq
  rw [apply_moveresize_nobjects] at hq ⊢
  obtain ⟨h1, h2, h3⟩ := h q hq
  rw [apply_moveresize_next_id, apply_moveresize_geom]
  by_cases hqp : q = p
  · subst hqp
    simp only [apply_moveresize_self]
    refine ⟨?_, h2, ?_⟩
    · intro _
      by_cases hd : (G.objects q).geometry_dirty = true
      · simp [hd]
      · simp only [hd, false_and, if_false]
        exact h1 (by simpa using hd)
    · intro r hr hrw
      by_cases hrq : r = q
      · exact hrq
      · rw [apply_moveresize_ne _ _ _ hrq] at hrw
        exact h3 r hr hrw
  · rw [apply_moveresize_ne _ _ _ hqp]
    have hne : (G.objects q).window ≠ (G.objects p).window :=
      fun e => hqp ((h p hp).2.2 q hq e)
    refine ⟨?_, h2, ?_⟩
    · intro hd
      simp only [hne, and_false, if_false]
      exact h1 hd
    · intro r hr hrw
      by_cases hrp : r = p
      · subst hrp
        simp only [apply_moveresize_self] at hrw
        exact h3 r hr hrw
      · rw [apply_moveresize_ne _ _ _ hrp] at hrw
        exact h3 r hr hrw

theorem geometry_inv_moveresize (D : drawable_class_t) (G : globalconf_t) (p : Nat)
    (g : area_t) (h : geometry_inv G) : geometry_inv (drawin_moveresize D G p g) := by
  apply geometry_inv_frame G _ h (moveresize_nobjects D G p g)
  · rw [moveresize_connection]
  · rw [moveresize_connection]
  · intro q
    by_cases hqp : q = p
    · subst hqp; simp [moveresize_self]
    · rw [moveresize_ne _ _ _ _ _ hqp]
  · intro q
    by_cases hqp : q = p
    · subst hqp; simp [moveresize_self]
    · rw [moveresize_ne _ _ _ _ _ hqp]; exact fun hd => ⟨hd, rfl⟩

theorem geometry_inv_drawable_changed (G : globalconf_t) (p : Nat) (d : drawable_t)
    (h : geometry_inv G) : geometry_inv (drawable_changed G p d) := by
  refine geometry_inv_frame G (drawable_changed G p d) h rfl rfl rfl ?_ ?_
  · intro q
    by_cases hqp : q = p
    · subst hqp; simp [drawable_changed_self]
    · rw [drawable_changed_ne _ _ _ _ hqp]
  · intro q
    by_cases hqp : q = p
    · subst hqp; simp [drawable_changed_self]
    · rw [drawable_changed_ne _ _ _ _ hqp]; exact fun hd => ⟨hd, rfl⟩

theorem geometry_inv_map (D : drawable_class_t) (G : globalconf_t) (p : Nat)
    (hp : p < G.nobjects) (h : geometry_inv G) : geometry_inv (drawin_map D G p) := by
  apply geometry_inv_frame _ _ (geometry_inv_apply_moveresize G p hp h)
  · rw [map_nobjects, apply_moveresize_nobjects]
  · rw [map_connection]; rfl
  · rw [map_connection]; rfl
  · intro q
    by_cases hqp : q = p
    · subst hqp; simp [map_self, apply_moveresize_self]
    · rw [map_ne _ _ _ _ hqp, apply_moveresize_ne _ _ _ hqp]
  · intro q
    by_cases hqp : q = p
    · subst hqp; simp [map_self, apply_moveresize_self]
    · rw [map_ne _ _ _ _ hqp, apply_moveresize_ne _ _ _ hqp]; exact fun hd => ⟨hd, rfl⟩

theorem geometry_inv_refresh (G : globalconf_t) (p : Nat) (x y w h : Int)
    (hp : p < G.nobjects) (hi : geometry_inv G) :
    geometry_inv ( drawin_refresh_pixmap_partial G p x y w h) := by
  rcases refresh_cases G p x y w h with he | ⟨pm, he⟩
  · rw [he]; exact hi
  · rw [he]
    exact geometry_inv_frame _ _ (geometry_inv_apply_moveresize G p hp hi) rfl rfl rfl
      (fun _ => rfl) (fun _ hd => ⟨hd, rfl⟩)

theorem geometry_inv_allocator (D : drawable_class_t) (G : globalconf_t)
    (h : geometry_inv G) : geometry_inv (drawin_allocator D G).2 := by
  intro q hq
  rw [allocator_nobjects] at hq ⊢
  rw [allocator_connection]
  simp only [xcb_create_window]
  by_cases hqn : q = G.nobjects
  · subst hqn
    rw [allocator_self]
    refine ⟨by simp, by simp, ?_⟩
    intro r hr hrw
    by_cases hrn : r = G.nobjects
    · exact hrn
    · rw [allocator_ne _ _ _ hrn] at hrw
      have hlt : r < G.nobjects := by omega
      have := (h r hlt).2.1
      simp only at hrw
      omega
  · have hlt : q < G.nobjects := by omega
    obtain ⟨h1, h2, h3⟩ := h q hlt
    rw [allocator_ne _ _ _ hqn]
    have hne : (G.objects q).window ≠ G.connection.next_id := by omega
    refine ⟨?_, Nat.lt_succ_of_lt h2, ?_⟩
    · intro hd
      simp [Function.update_noteq hne, h1 hd]
    · intro r hr hrw
      by_cases hrn : r = G.nobjects
      · subst hrn
        rw [allocator_self] at hrw
        simp only at hrw
        omega
      · rw [allocator_ne _ _ _ hrn] at hrw
        exact h3 r (by omega) hrw

theorem geometry_reachable_inv (D : drawable_class_t) (G : globalconf_t)
    (h : geometry_reachable D G) : geometry_inv G := by
  induction h with
  | init c => exact geometry_inv_init c
  | allocator G _ ih => exact geometry_inv_allocator D G ih
  | moveresize G p g _ _ ih => exact geometry_inv_moveresize D G p g ih
  | apply_moveresize G p _ hp ih => exact geometry_inv_apply_moveresize G p hp ih
  | map G p _ hp ih => exact geometry_inv_map D G p hp ih
  | refresh G p x y w h _ hp ih => exact geometry_inv_refresh G p x y w h hp ih
  | drawable G p d _ _ ih => exact geometry_inv_drawable_changed G p d ih

/-! ## Pixmap copies and the configured geometry -/

/-- C1: in every state reachable from `drawin_allocator` through
`drawin_moveresize`, `drawin_apply_moveresize`, `drawin_map` and
`drawin_refresh_pixmap_partial`, when `drawin_refresh_pixmap_partial` gets past
its test (the drawable has a pixmap and has been refreshed), the copy request is
sent from the state left by `drawin_apply_moveresize`, and in that state the
geometry configured for the window of the drawin equals the geometry field of
the drawin and `geometry_dirty` is false. -/
theorem refresh_copy_matches_geometry (D : drawable_class_t) (G : globalconf_t)
    (hG : geometry_reachable D G) (p : Nat) (hp : p < G.nobjects) (x y w h : Int)
    (d : drawable_t) (hd : (G.objects p).drawable = some d) (hpix : d.pixmap ≠ 0)
    (hr : d.refreshed = true) :
    drawin_refresh_pixmap_partial G p x y w h =
      { drawin_apply_moveresize G p with
        connection := xcb_copy_area (drawin_apply_moveresize G p).connection d.pixmap
          ((drawin_apply_moveresize G p).objects p).window x y w h }
    ∧ (drawin_apply_moveresize G p).connection.geom
        ((drawin_apply_moveresize G p).objects p).window
        = ((drawin_apply_moveresize G p).objects p).geometry
    ∧ ((drawin_apply_moveresize G p).objects p).geometry_dirty = false := by
  have hinv := geometry_inv_apply_moveresize G p hp (geometry_reachable_inv D G hG)
  have hp1 : p < (drawin_apply_moveresize G p).nobjects := by
    rw [apply_moveresize_nobjects]; exact hp
  have hdirty : ((drawin_apply_moveresize G p).objects p).geometry_dirty = false := by
    rw [apply_moveresize_self]
  exact ⟨refresh_issued G p x y w h d hd hpix hr, (hinv p hp1).1 hdirty, hdirty⟩

theorem globalconf_pending_reachable :
    geometry_reachable drawable_class_sample globalconf_pending :=
  geometry_reachable.moveresize _ 0 _
    (geometry_reachable.drawable _ 0 _
      (geometry_reachable.allocator _ (geometry_reachable.init xserver_empty))
      (by decide))
    (by decide)

theorem refresh_copy_matches_geometry_witness :
    (globalconf_pending.objects 0).geometry_dirty = true
    ∧ globalconf_pending.connection.geom 1 = { x := 0, y := 0, width := 1, height := 1 }
    ∧ ( drawin_refresh_pixmap_partial globalconf_pending 0 0 0 20 30).connection.requests =
        [xcb_request.create_window 1 { x := 0, y := 0, width := 1, height := 1 },
         xcb_request.configure_window 1 { x := 5, y := 6, width := 20, height := 30 },
         xcb_request.copy_area 7 1 0 0 20 30]
    ∧ (drawin_apply_moveresize globalconf_pending 0).connection.geom
        ((drawin_apply_moveresize globalconf_pending 0).objects 0).window
        = ((drawin_apply_moveresize globalconf_pending 0).objects 0).geometry
    ∧ ((drawin_apply_moveresize globalconf_pending 0).objects 0).geometry_dirty = false :=
  ⟨by decide, by decide, by decide,
    (refresh_copy_matches_geometry drawable_class_sample globalconf_pending
      globalconf_pending_reachable 0 (by decide) 0 0 20 30
      { drawable_refreshed with geometry := { x := 5, y := 6, width := 20, height := 30 } }
      (by decide) (by decide) (by decide)).2⟩

/-! ## The 16-bit fields -/

theorem to_int16_t_range (v : Int) : -32768 ≤ to_int16_t v ∧ to_int16_t v ≤ 32767 := by
  unfold to_int16_t
  omega

theorem to_int16_t_of_range (v : Int) (h1 : -32768 ≤ v) (h2 : v ≤ 32767) :
    to_int16_t v = v := by
  unfold to_int16_t
  omega

theorem to_uint16_t_range (v : Int) : 0 ≤ to_uint16_t v ∧ to_uint16_t v ≤ 65535 := by
  unfold to_uint16_t
  omega

theorem to_uint16_t_of_range (v : Int) (h1 : 0 ≤ v) (h2 : v ≤ 65535) :
    to_uint16_t v = v := by
  unfold to_uint16_t
  omega

/-! ## The width and height setters -/

theorem set_width_error (D : drawable_class_t) (G : globalconf_t) (p : Nat) (v : Int)
    (hv : v ≤ 0) :
    luaA_drawin_set_width D G p v = (Except.error "invalid width", G) := by
  simp [luaA_drawin_set_width, hv]

theorem set_width_ok (D : drawable_class_t) (G : globalconf_t) (p : Nat) (v : Int)
    (hv : 0 < v) :
    luaA_drawin_set_width D G p v =
      (Except.ok 0, drawin_moveresize D G p
        { x := (G.objects p).geometry.x, y := (G.objects p).geometry.y,
          width := to_uint16_t v, height := (G.objects p).geometry.height }) := by
  simp [luaA_drawin_set_width, not_le.mpr hv]

theorem set_height_error (D : drawable_class_t) (G : globalconf_t) (p : Nat) (v : Int)
    (hv : v ≤ 0) :
    luaA_drawin_set_height D G p v = (Except.error "invalid height", G) := by
  simp [luaA_drawin_set_height, hv]

theorem set_height_ok (D : drawable_class_t) (G : globalconf_t) (p : Nat) (v : Int)
    (hv : 0 < v) :
    luaA_drawin_set_height D G p v =
      (Except.ok 0, drawin_moveresize D G p
        { x := (G.objects p).geometry.x, y := (G.objects p).geometry.y,
          width := (G.objects p).geometry.width, height := to_uint16_t v }) := by
  simp [luaA_drawin_set_height, not_le.mpr hv]

theorem moveresize_geometry (D : drawable_class_t) (G : globalconf_t) (p : Nat) (g : area_t) :
    ((drawin_moveresize D G p g).objects p).geometry =
      drawin_moveresize_area (G.objects p).geometry g := by
  rw [moveresize_self]

theorem moveresize_dirty (D : drawable_class_t) (G : globalconf_t) (p : Nat) (g : area_t) :
    ((drawin_moveresize D G p g).objects p).geometry_dirty = true := by
  rw [moveresize_self]

theorem moveresize_window (D : drawable_class_t) (G : globalconf_t) (p : Nat) (g : area_t) :
    ((drawin_moveresize D G p g).objects p).window = (G.objects p).window := by
  rw [moveresize_self]

theorem set_width_stored (D : drawable_class_t) (G : globalconf_t) (p : Nat) (v : Int)
    (hv : 0 < v) :
    ((luaA_drawin_set_width D G p v).2.objects p).geometry =
      { (G.objects p).geometry with
        width := if to_uint16_t v ≤ 0 then (G.objects p).geometry.width else to_uint16_t v } := by
  rw [set_width_ok D G p v hv]
  simp only [moveresize_geometry, drawin_moveresize_area]
  by_cases hh : (G.objects p).geometry.height ≤ 0 <;> simp [hh]

theorem set_height_stored (D : drawable_class_t) (G : globalconf_t) (p : Nat) (v : Int)
    (hv : 0 < v) :
    ((luaA_drawin_set_height D G p v).2.objects p).geometry =
      { (G.objects p).geometry with
        height := if to_uint16_t v ≤ 0 then (G.objects p).geometry.height
          else to_uint16_t v } := by
  rw [set_height_ok D G p v hv]
  simp only [moveresize_geometry, drawin_moveresize_area]
  by_cases hh : (G.objects p).geometry.width ≤ 0 <;> simp [hh]

theorem set_x_stored (D : drawable_class_t) (G : globalconf_t) (p : Nat) (v : Int) :
    ((luaA_drawin_set_x D G p v).2.objects p).geometry =
      { (G.objects p).geometry with x := to_int16_t v } := by
  simp only [luaA_drawin_set_x, moveresize_geometry, drawin_moveresize_area]
  by_cases hw : (G.objects p).geometry.width ≤ 0 <;>
    by_cases hh : (G.objects p).geometry.height ≤ 0 <;> simp [hw, hh]

theorem set_y_stored (D : drawable_class_t) (G : globalconf_t) (p : Nat) (v : Int) :
    ((luaA_drawin_set_y D G p v).2.objects p).geometry =
      { (G.objects p).geometry with y := to_int16_t v } := by
  simp only [luaA_drawin_set_y, moveresize_geometry, drawin_moveresize_area]
  by_cases hw : (G.objects p).geometry.width ≤ 0 <;>
    by_cases hh : (G.objects p).geometry.height ≤ 0 <;> simp [hw, hh]

/-- C2, counterexample: on a drawin just allocated the width setter called with
70000 returns without an error and the width of the drawin is 4464 afterwards,
not 70000; the height setter called with 65536 returns without an error and the
height is still 1. -/
theorem set_width_height_counterexample :
    (luaA_drawin_set_width drawable_class_sample globalconf_one 0 70000).1 = Except.ok 0
    ∧ ((luaA_drawin_set_width drawable_class_sample globalconf_one 0 70000).2.objects 0).geometry.width
        = 4464
    ∧ ((luaA_drawin_set_width drawable_class_sample globalconf_one 0 70000).2.objects 0).geometry.width
        ≠ 70000
    ∧ (luaA_drawin_set_height drawable_class_sample globalconf_one 0 65536).1 = Except.ok 0
    ∧ ((luaA_drawin_set_height drawable_class_sample globalconf_one 0 65536).2.objects
        0).geometry.height = 1
    ∧ ((luaA_drawin_set_height drawable_class_sample globalconf_one 0 65536).2.objects
        0).geometry.height ≠ 65536 :=
  ⟨rfl, by decide, by decide, rfl, by decide, by decide⟩

/-- C2, amended: the width setter raises "invalid width" exactly when the value
is not positive, the height setter raises "invalid height" exactly when the
value is not positive; when the error is raised the state is the one before the
call (so the geometry, the `geometry_dirty` flag and the signal log are
unchanged); otherwise the setter returns, and the width (the height) of the
drawin is the value when the value is at most 65535, the largest value of the
16-bit field.  For any positive value the field holds the value modulo `2^16`,
or keeps the previous one when that is 0. -/
theorem set_width_height_error_iff (D : drawable_class_t) (G : globalconf_t) (p : Nat)
    (v : Int) :
    ((luaA_drawin_set_width D G p v).1 = Except.error "invalid width" ↔ v ≤ 0)
    ∧ (v ≤ 0 → (luaA_drawin_set_width D G p v).2 = G)
    ∧ (0 < v → (luaA_drawin_set_width D G p v).1 = Except.ok 0
        ∧ ((luaA_drawin_set_width D G p v).2.objects p).geometry.width =
            (if to_uint16_t v ≤ 0 then (G.objects p).geometry.width else to_uint16_t v))
    ∧ (0 < v → v ≤ 65535 →
        ((luaA_drawin_set_width D G p v).2.objects p).geometry.width = v)
    ∧ ((luaA_drawin_set_height D G p v).1 = Except.error "invalid height" ↔ v ≤ 0)
    ∧ (v ≤ 0 → (luaA_drawin_set_height D G p v).2 = G)
    ∧ (0 < v → (luaA_drawin_set_height D G p v).1 = Except.ok 0
        ∧ ((luaA_drawin_set_height D G p v).2.objects p).geometry.height =
            (if to_uint16_t v ≤ 0 then (G.objects p).geometry.height else to_uint16_t v))
    ∧ (0 < v → v ≤ 65535 →
        ((luaA_drawin_set_height D G p v).2.objects p).geometry.height = v) := by
  refine ⟨?_, ?_, ?_, ?_, ?_, ?_, ?_, ?_⟩
  · constructor
    · intro h
      by_contra hv
      rw [set_width_ok D G p v (not_le.mp hv)] at h
      simp at h
    · intro hv
      rw [set_width_error D G p v hv]
  · intro hv
    rw [set_width_error D G p v hv]
  · intro hv
    refine ⟨by rw [set_width_ok D G p v hv], ?_⟩
    rw [set_width_stored D G p v hv]
  · intro hv hle
    rw [set_width_stored D G p v hv, to_uint16_t_of_range v (le_of_lt hv) hle]
    simp [not_le.mpr hv]
  · constructor
    · intro h
      by_contra hv
      rw [set_height_ok D G p v (not_le.mp hv)] at h
      simp at h
    · intro hv
      rw [set_height_error D G p v hv]
  · intro hv
    rw [set_height_error D G p v hv]
  · intro hv
    refine ⟨by rw [set_height_ok D G p v hv], ?_⟩
    rw [set_height_stored D G p v hv]
  · intro hv hle
    rw [set_height_stored D G p v hv, to_uint16_t_of_range v (le_of_lt hv) hle]
    simp [not_le.mpr hv]

theorem set_width_height_error_iff_witness :
    (luaA_drawin_set_width drawable_class_sample globalconf_pending 0 (-3)).2 = globalconf_pending
    ∧ ((luaA_drawin_set_width drawable_class_sample globalconf_pending 0 7).2.objects 0).geometry.width
        = 7
    ∧ (luaA_drawin_set_height drawable_class_sample globalconf_pending 0 0).2 = globalconf_pending
    ∧ ((luaA_drawin_set_height drawable_class_sample globalconf_pending 0 65535).2.objects
        0).geometry.height = 65535 :=
  ⟨(set_width_height_error_iff drawable_class_sample globalconf_pending 0 (-3)).2.1 (by decide),
   (set_width_height_error_iff drawable_class_sample globalconf_pending 0 7).2.2.2.1
      (by decide) (by decide),
   (set_width_height_error_iff drawable_class_sample globalconf_pending 0 0).2.2.2.2.2.1
      (by decide),
   (set_width_height_error_iff drawable_class_sample globalconf_pending 0 65535).2.2.2.2.2.2.2
      (by decide) (by decide)⟩

/-! ## Setters and the X server -/

/-- C3, counterexample: after `x` is set to 5 on a drawin just allocated the
setter has returned, the drawin has `x = 5`, and the window is still configured
at `x = 0`. -/
theorem setter_synchronous_counterexample :
    (luaA_drawin_set_x drawable_class_sample globalconf_one 0 5).1 = Except.ok 0
    ∧ ((luaA_drawin_set_x drawable_class_sample globalconf_one 0 5).2.objects 0).geometry
        = { x := 5, y := 0, width := 1, height := 1 }
    ∧ (luaA_drawin_set_x drawable_class_sample globalconf_one 0 5).2.connection.geom
        ((luaA_drawin_set_x drawable_class_sample globalconf_one 0 5).2.objects 0).window
        = { x := 0, y := 0, width := 1, height := 1 }
    ∧ (luaA_drawin_set_x drawable_class_sample globalconf_one 0 5).2.connection.geom
        ((luaA_drawin_set_x drawable_class_sample globalconf_one 0 5).2.objects 0).window
        ≠ ((luaA_drawin_set_x drawable_class_sample globalconf_one 0 5).2.objects 0).geometry :=
  ⟨rfl, by decide, by decide, by decide⟩

theorem set_property_ok (D : drawable_class_t) (G : globalconf_t) (p : Nat)
    (prop : geometry_property) (v : Int)
    (hok : (drawin_set_property D G p prop v).1 = Except.ok 0) :
    ∃ g, (drawin_set_property D G p prop v).2 = drawin_moveresize D G p g := by
  cases prop with
  | x => exact ⟨_, rfl⟩
  | y => exact ⟨_, rfl⟩
  | width =>
    by_cases hv : v ≤ 0
    · simp [drawin_set_property, set_width_error D G p v hv] at hok
    · simp only [drawin_set_property, set_width_ok D G p v (not_le.mp hv)]
      exact ⟨_, rfl⟩
  | height =>
    by_cases hv : v ≤ 0
    · simp [drawin_set_property, set_height_error D G p v hv] at hok
    · simp only [drawin_set_property, set_height_ok D G p v (not_le.mp hv)]
      exact ⟨_, rfl⟩

theorem set_property_stored (D : drawable_class_t) (G : globalconf_t) (p : Nat)
    (prop : geometry_property) (v : Int)
    (hok : (drawin_set_property D G p prop v).1 = Except.ok 0) :
    ((drawin_set_property D G p prop v).2.objects p).geometry =
      (match prop with
        | geometry_property.x => { (G.objects p).geometry with x := to_int16_t v }
        | geometry_property.y => { (G.objects p).geometry with y := to_int16_t v }
        | geometry_property.width =>
          { (G.objects p).geometry with
            width := if to_uint16_t v ≤ 0 then (G.objects p).geometry.width
              else to_uint16_t v }
        | geometry_property.height =>
          { (G.objects p).geometry with
            height := if to_uint16_t v ≤ 0 then (G.objects p).geometry.height
              else to_uint16_t v }) := by
  cases prop with
  | x => exact set_x_stored D G p v
  | y => exact set_y_stored D G p v
  | width =>
    by_cases hv : v ≤ 0
    · simp [drawin_set_property, set_width_error D G p v hv] at hok
    · exact set_width_stored D G p v (not_le.mp hv)
  | height =>
    by_cases hv : v ≤ 0
    · simp [drawin_set_property, set_height_error D G p v hv] at hok
    · exact set_height_stored D G p v (not_le.mp hv)

/-- C3, amended: when a successful call of the `x`, `y`, `width` or `height`
setter with the value `v` returns, the geometry field of the drawin has the
assigned field set to `v` as the 16-bit field holds it (`v` itself when it is in
the range of the field; a width or height held as 0 keeps the previous one) and
its three other fields as before, `geometry_dirty` is set, and the window of the
drawin still has the geometry configured before the call; the configured
geometry of the window equals the new geometry field once
`drawin_apply_moveresize` has run on the drawin. -/
theorem setter_defers_configure (D : drawable_class_t) (G : globalconf_t) (p : Nat)
    (prop : geometry_property) (v : Int)
    (hok : (drawin_set_property D G p prop v).1 = Except.ok 0) :
    ((drawin_set_property D G p prop v).2.objects p).geometry =
      (match prop with
        | geometry_property.x => { (G.objects p).geometry with x := to_int16_t v }
        | geometry_property.y => { (G.objects p).geometry with y := to_int16_t v }
        | geometry_property.width =>
          { (G.objects p).geometry with
            width := if to_uint16_t v ≤ 0 then (G.objects p).geometry.width
              else to_uint16_t v }
        | geometry_property.height =>
          { (G.objects p).geometry with
            height := if to_uint16_t v ≤ 0 then (G.objects p).geometry.height
              else to_uint16_t v })
    ∧ (-32768 ≤ v → v ≤ 32767 → to_int16_t v = v)
    ∧ (0 < v → v ≤ 65535 → to_uint16_t v = v ∧ ¬ to_uint16_t v ≤ 0)
    ∧ ((drawin_set_property D G p prop v).2.objects p).geometry_dirty = true
    ∧ ((drawin_set_property D G p prop v).2.objects p).window = (G.objects p).window
    ∧ (drawin_set_property D G p prop v).2.connection.geom (G.objects p).window
        = G.connection.geom (G.objects p).window
    ∧ (drawin_apply_moveresize (drawin_set_property D G p prop v).2 p).connection.geom
        (G.objects p).window
        = ((drawin_set_property D G p prop v).2.objects p).geometry
    ∧ ((drawin_apply_moveresize (drawin_set_property D G p prop v).2 p).objects p).geometry
        = ((drawin_set_property D G p prop v).2.objects p).geometry := by
  refine ⟨set_property_stored D G p prop v hok, to_int16_t_of_range v, ?_, ?_⟩
  · intro h0 h1
    rw [to_uint16_t_of_range v (le_of_lt h0) h1]
    exact ⟨rfl, not_le.mpr h0⟩
  · obtain ⟨g, hg⟩ := set_property_ok D G p prop v hok
    rw [hg]
    refine ⟨moveresize_dirty D G p g, moveresize_window D G p g, ?_, ?_, ?_⟩
    · rw [moveresize_connection]
    · rw [apply_moveresize_geom]
      simp [moveresize_dirty, moveresize_window]
    · rw [apply_moveresize_self]

theorem setter_defers_configure_witness :
    ((drawin_set_property drawable_class_sample globalconf_one 0
        geometry_property.width 40).2.objects 0).geometry
      = { x := 0, y := 0, width := 40, height := 1 }
    ∧ ((drawin_set_property drawable_class_sample globalconf_one 0
          geometry_property.width 40).2.objects 0).geometry_dirty = true
    ∧ (drawin_set_property drawable_class_sample globalconf_one 0
          geometry_property.width 40).2.connection.geom 1
        = { x := 0, y := 0, width := 1, height := 1 }
    ∧ (drawin_apply_moveresize (drawin_set_property drawable_class_sample globalconf_one 0
          geometry_property.width 40).2 0).connection.geom 1
        = { x := 0, y := 0, width := 40, height := 1 } :=
  ⟨(setter_defers_configure drawable_class_sample globalconf_one 0
      geometry_property.width 40 rfl).1,
   (setter_defers_configure drawable_class_sample globalconf_one 0
      geometry_property.width 40 rfl).2.2.2.1,
   (setter_defers_configure drawable_class_sample globalconf_one 0
      geometry_property.width 40 rfl).2.2.2.2.2.1,
   (setter_defers_configure drawable_class_sample globalconf_one 0
      geometry_property.width 40 rfl).2.2.2.2.2.2.1⟩

/-! ## The geometry method -/

theorem geometry_none (D : drawable_class_t) (G : globalconf_t) (p : Nat) :
    luaA_drawin_geometry D G p none = (Except.ok (G.objects p).geometry, G) := rfl

theorem geometry_invalid (D : drawable_class_t) (G : globalconf_t) (p : Nat)
    (t : geometry_table)
    (h : (geometry_table_merge (G.objects p).geometry t).width ≤ 0
      ∨ (geometry_table_merge (G.objects p).geometry t).height ≤ 0) :
    luaA_drawin_geometry D G p (some t) = (Except.ok (G.objects p).geometry, G) := by
  unfold geometry_table_merge at h
  simp only at h
  unfold luaA_drawin_geometry
  rcases h with h | h
  · simp [not_lt.mpr h]
  · simp [not_lt.mpr h]

theorem geometry_valid (D : drawable_class_t) (G : globalconf_t) (p : Nat)
    (t : geometry_table)
    (hw : 0 < (geometry_table_merge (G.objects p).geometry t).width)
    (hh : 0 < (geometry_table_merge (G.objects p).geometry t).height) :
    luaA_drawin_geometry D G p (some t) =
      (Except.ok (geometry_table_merge (G.objects p).geometry t),
        drawin_moveresize D G p (geometry_table_merge (G.objects p).geometry t)) := by
  have hm : drawin_moveresize_area (G.objects p).geometry
      (geometry_table_merge (G.objects p).geometry t)
      = geometry_table_merge (G.objects p).geometry t := by
    simp [drawin_moveresize_area, not_le.mpr hw, not_le.mpr hh]
  unfold geometry_table_merge at hw hh
  simp only at hw hh
  unfold luaA_drawin_geometry
  simp only [hw, hh, gt_iff_lt, decide_True, Bool.and_self, if_true]
  rw [show ({ x := to_int16_t (luaA_getopt_integer t.x (G.objects p).geometry.x),
              y := to_int16_t (luaA_getopt_integer t.y (G.objects p).geometry.y),
              width := to_uint16_t (luaA_getopt_integer t.width (G.objects p).geometry.width),
              height := to_uint16_t
                (luaA_getopt_integer t.height (G.objects p).geometry.height) } : area_t)
        = geometry_table_merge (G.objects p).geometry t from rfl]
  rw [moveresize_geometry, hm]

/-- C5, the code at the failing input: on a drawin just allocated, `geometry`
with the table `{ width = -5 }` raises no error; the entry is held as 65531 by
the 16-bit width, passes the test and is stored, and the area returned has the
width 65531.  With the table `{ height = 0 }` it raises no error either and
returns the geometry the drawin had. -/
theorem geometry_invalid_failing :
    (luaA_drawin_geometry drawable_class_sample globalconf_one 0
      (some { x := none, y := none, width := some (-5), height := none })).1
      = Except.ok { x := 0, y := 0, width := 65531, height := 1 }
    ∧ ((luaA_drawin_geometry drawable_class_sample globalconf_one 0
      (some { x := none, y := none, width := some (-5), height := none })).2.objects 0).geometry
      = { x := 0, y := 0, width := 65531, height := 1 }
    ∧ (luaA_drawin_geometry drawable_class_sample globalconf_one 0
      (some { x := none, y := none, width := none, height := some 0 })).1
      = Except.ok { x := 0, y := 0, width := 1, height := 1 }
    ∧ ((luaA_drawin_geometry drawable_class_sample globalconf_one 0
      (some { x := none, y := none, width := none, height := some 0 })).2.objects 0).geometry
      = { x := 0, y := 0, width := 1, height := 1 } :=
  ⟨rfl, by decide, rfl, by decide⟩

/-- C4, the code at the failing input: on a drawin just allocated, `geometry`
with the table `{ x = 3, width = -5 }` returns normally and leaves the geometry
`x = 3, width = 65531`, while assigning the keys to the properties sets `x = 3`
and then raises "invalid width", the width being still 1.  With the table
`{ x = 3, width = 0 }`, `geometry` returns normally and leaves `x = 0`, while
the properties set `x = 3` and raise "invalid width". -/
theorem geometry_as_properties_failing :
    (luaA_drawin_geometry drawable_class_sample globalconf_one 0
      (some { x := some 3, y := none, width := some (-5), height := none })).1
      = Except.ok { x := 3, y := 0, width := 65531, height := 1 }
    ∧ ((luaA_drawin_geometry drawable_class_sample globalconf_one 0
      (some { x := some 3, y := none, width := some (-5), height := none })).2.objects 0).geometry
      = { x := 3, y := 0, width := 65531, height := 1 }
    ∧ (assign_properties drawable_class_sample globalconf_one 0
      { x := some 3, y := none, width := some (-5), height := none }).1
      = Except.error "invalid width"
    ∧ ((assign_properties drawable_class_sample globalconf_one 0
      { x := some 3, y := none, width := some (-5), height := none }).2.objects 0).geometry
      = { x := 3, y := 0, width := 1, height := 1 }
    ∧ (luaA_drawin_geometry drawable_class_sample globalconf_one 0
      (some { x := some 3, y := none, width := some 0, height := none })).1
      = Except.ok { x := 0, y := 0, width := 1, height := 1 }
    ∧ ((luaA_drawin_geometry drawable_class_sample globalconf_one 0
      (some { x := some 3, y := none, width := some 0, height := none })).2.objects 0).geometry
      = { x := 0, y := 0, width := 1, height := 1 }
    ∧ (assign_properties drawable_class_sample globalconf_one 0
      { x := some 3, y := none, width := some 0, height := none }).1
      = Except.error "invalid width"
    ∧ ((assign_properties drawable_class_sample globalconf_one 0
      { x := some 3, y := none, width := some 0, height := none }).2.objects 0).geometry
      = { x := 3, y := 0, width := 1, height := 1 } :=
  ⟨rfl, by decide, rfl, by decide, rfl, by decide, rfl, by decide⟩

/-! ## drawin_set_visible -/

section effects_visible

variable (D : drawable_class_t) (G : globalconf_t) (p q : Nat)

theorem set_visible_same (v : Bool) (h : v = (G.objects p).visible) :
    drawin_set_visible D G p v = G := by
  unfold drawin_set_visible
  simp [h]

/-- The state `drawin_set_visible` reaches before it emits its signals, when it
shows a hidden drawin. -/
theorem set_visible_show_eq (h : (G.objects p).visible = false) :
    drawin_set_visible D G p true =
      (if (G.objects p).strut = true then
        luaA_object_emit_signal
          (luaA_object_emit_signal
            (luaA_object_ref_class
              (drawin_map D (set_object G p { G.objects p with visible := true }) p) p)
            (lua_object.drawin p) "property::visible")
          (lua_object.screen_at (G.objects p).geometry.x (G.objects p).geometry.y)
          "property::workarea"
      else
        luaA_object_emit_signal
          (luaA_object_ref_class
            (drawin_map D (set_object G p { G.objects p with visible := true }) p) p)
          (lua_object.drawin p) "property::visible") := by
  unfold drawin_set_visible
  simp only [h, bne_iff_ne, ne_eq, not_false_eq_true, if_true, set_object_self,
    Bool.true_eq_false]
  simp only [luaA_object_emit_signal, luaA_object_ref_class, map_self, set_object_self]

theorem set_visible_hide_eq (h : (G.objects p).visible = true) :
    drawin_set_visible D G p false =
      (if (G.objects p).strut = true then
        luaA_object_emit_signal
          (luaA_object_emit_signal
            (luaA_object_unref
              (drawin_unmap (set_object G p { G.objects p with visible := false }) p) p)
            (lua_object.drawin p) "property::visible")
          (lua_object.screen_at (G.objects p).geometry.x (G.objects p).geometry.y)
          "property::workarea"
      else
        luaA_object_emit_signal
          (luaA_object_unref
            (drawin_unmap (set_object G p { G.objects p with visible := false }) p) p)
          (lua_object.drawin p) "property::visible") := by
  unfold drawin_set_visible
  simp only [h, bne_iff_ne, ne_eq, not_false_eq_true, if_true, set_object_self,
    Bool.false_eq_true, if_false]
  simp only [luaA_object_emit_signal, luaA_object_unref, unmap_objects, set_object_self]

end effects_visible

section effects_show_hide

variable (D : drawable_class_t) (G : globalconf_t) (p q : Nat)

theorem show_self (h : (G.objects p).visible = false) :
    (drawin_set_visible D G p true).objects p =
      { G.objects p with
          visible := true,
          geometry_dirty := false,
          drawable := match (G.objects p).drawable with
            | none => none
            | some d => if d.surface = 0 then
                some (D.drawable_set_geometry d (G.objects p).geometry) else some d } := by
  rw [set_visible_show_eq D G p h]
  split_ifs <;>
    simp only [luaA_object_emit_signal, luaA_object_ref_class, map_self, set_object_self]

theorem show_ne (h : (G.objects p).visible = false) (hq : q ≠ p) :
    (drawin_set_visible D G p true).objects q = G.objects q := by
  rw [set_visible_show_eq D G p h]
  split_ifs <;>
    simp only [luaA_object_emit_signal, luaA_object_ref_class, map_ne _ _ _ _ hq,
      set_object_ne _ _ _ _ hq]

theorem show_nobjects (h : (G.objects p).visible = false) :
    (drawin_set_visible D G p true).nobjects = G.nobjects := by
  rw [set_visible_show_eq D G p h]
  split_ifs <;>
    simp only [luaA_object_emit_signal, luaA_object_ref_class, map_nobjects, set_object]

theorem show_drawins (h : (G.objects p).visible = false) :
    (drawin_set_visible D G p true).drawins = G.drawins ++ [p] := by
  rw [set_visible_show_eq D G p h]
  split_ifs <;>
    simp only [luaA_object_emit_signal, luaA_object_ref_class, map_drawins, set_object]

theorem show_refs (h : (G.objects p).visible = false) :
    (drawin_set_visible D G p true).refs = Function.update G.refs p (G.refs p + 1) := by
  rw [set_visible_show_eq D G p h]
  split_ifs <;>
    simp only [luaA_object_emit_signal, luaA_object_ref_class, map_refs, set_object]

theorem show_connection (h : (G.objects p).visible = false) :
    (drawin_set_visible D G p true).connection =
      xcb_map_window
        (if (G.objects p).geometry_dirty = true then
          xcb_configure_window G.connection (G.objects p).window (G.objects p).geometry
         else G.connection)
        (G.objects p).window := by
  rw [set_visible_show_eq D G p h]
  split_ifs <;>
    simp [luaA_object_emit_signal, luaA_object_ref_class, map_connection,
      apply_moveresize_connection, set_object_self, *] <;> simp [set_object]

theorem show_signals (h : (G.objects p).visible = false) :
    (drawin_set_visible D G p true).signals =
      G.signals ++ [{ target := lua_object.drawin p, name := "property::visible" }] ++
        (if (G.objects p).strut = true then
          [{ target := lua_object.screen_at (G.objects p).geometry.x (G.objects p).geometry.y,
             name := "property::workarea" }]
         else []) := by
  rw [set_visible_show_eq D G p h]
  split_ifs <;>
    simp [luaA_object_emit_signal, luaA_object_ref_class, map_signals, set_object]

theorem hide_self (h : (G.objects p).visible = true) :
    (drawin_set_visible D G p false).objects p = { G.objects p with visible := false } := by
  rw [set_visible_hide_eq D G p h]
  split_ifs <;>
    simp only [luaA_object_emit_signal, luaA_object_unref, unmap_objects, set_object_self]

theorem hide_ne (h : (G.objects p).visible = true) (hq : q ≠ p) :
    (drawin_set_visible D G p false).objects q = G.objects q := by
  rw [set_visible_hide_eq D G p h]
  split_ifs <;>
    simp only [luaA_object_emit_signal, luaA_object_unref, unmap_objects,
      set_object_ne _ _ _ _ hq]

theorem hide_nobjects (h : (G.objects p).visible = true) :
    (drawin_set_visible D G p false).nobjects = G.nobjects := by
  rw [set_visible_hide_eq D G p h]
  split_ifs <;> rfl

theorem hide_drawins (h : (G.objects p).visible = true) :
    (drawin_set_visible D G p false).drawins = G.drawins.erase p := by
  rw [set_visible_hide_eq D G p h]
  split_ifs <;> rfl

theorem hide_refs (h : (G.objects p).visible = true) :
    (drawin_set_visible D G p false).refs = Function.update G.refs p (G.refs p - 1) := by
  rw [set_visible_hide_eq D G p h]
  split_ifs <;> rfl

theorem hide_connection (h : (G.objects p).visible = true) :
    (drawin_set_visible D G p false).connection =
      xcb_unmap_window G.connection (G.objects p).window := by
  rw [set_visible_hide_eq D G p h]
  split_ifs <;>
    simp [luaA_object_emit_signal, luaA_object_unref, unmap_connection, set_object]

theorem hide_signals (h : (G.objects p).visible = true) :
    (drawin_set_visible D G p false).signals =
      G.signals ++ [{ target := lua_object.drawin p, name := "property::visible" }] ++
        (if (G.objects p).strut = true then
          [{ target := lua_object.screen_at (G.objects p).geometry.x (G.objects p).geometry.y,
             name := "property::workarea" }]
         else []) := by
  rw [set_visible_hide_eq D G p h]
  split_ifs <;>
    simp [luaA_object_emit_signal, luaA_object_unref, unmap_signals, set_object]

end effects_show_hide

/-! ## The visibility invariant -/

theorem visible_inv_init (c : xserver_t) : visible_inv (globalconf_init c) := by
  refine ⟨?_, ?_⟩
  · intro p hp
    simp [globalconf_init] at hp
  · intro p hp
    simp [globalconf_init] at hp

theorem visible_inv_allocator (D : drawable_class_t) (G : globalconf_t)
    (h : visible_inv G) : visible_inv (drawin_allocator D G).2 := by
  obtain ⟨hA, hB⟩ := h
  refine ⟨?_, ?_⟩
  · intro p hp
    rw [allocator_drawins] at hp
    rw [allocator_nobjects]
    exact Nat.lt_succ_of_lt (hA p hp)
  · intro q hq
    rw [allocator_nobjects] at hq ⊢
    rw [allocator_drawins, allocator_refs, allocator_connection]
    simp only [xcb_create_window]
    by_cases hqn : q = G.nobjects
    · subst hqn
      rw [allocator_self]
      have hnot : G.nobjects ∉ G.drawins := fun hm => Nat.lt_irrefl _ (hA _ hm)
      refine ⟨by simp [List.count_eq_zero_of_not_mem hnot], by simp, by simp, by simp, ?_⟩
      intro r hr hrw
      by_cases hrn : r = G.nobjects
      · exact hrn
      · rw [allocator_ne _ _ _ hrn] at hrw
        have := (hB r (by omega)).2.2.2.1
        simp only at hrw
        omega
    · have hlt : q < G.nobjects := by omega
      obtain ⟨h1, h2, h3, h4, h5⟩ := hB q hlt
      rw [allocator_ne _ _ _ hqn]
      have hne : (G.objects q).window ≠ G.connection.next_id := by omega
      refine ⟨h1, ?_, ?_, Nat.lt_succ_of_lt h4, ?_⟩
      · rw [Function.update_noteq hqn]; exact h2
      · rw [Function.update_noteq hne]; exact h3
      · intro r hr hrw
        by_cases hrn : r = G.nobjects
        · subst hrn
          rw [allocator_self] at hrw
          simp only at hrw
          omega
        · rw [allocator_ne _ _ _ hrn] at hrw
          exact h5 r (by omega) hrw

theorem visible_inv_show (D : drawable_class_t) (G : globalconf_t) (p : Nat)
    (hp : p < G.nobjects) (hv : (G.objects p).visible = false) (h : visible_inv G) :
    visible_inv (drawin_set_visible D G p true) := by
  obtain ⟨hA, hB⟩ := h
  have hwin : ∀ q, ((drawin_set_visible D G p true).objects q).window = (G.objects q).window := by
    intro q
    by_cases hqp : q = p
    · subst hqp; rw [show_self D G q hv]
    · rw [show_ne D G p q hv hqp]
  refine ⟨?_, ?_⟩
  · intro q hq
    rw [show_drawins D G p hv] at hq
    rw [show_nobjects D G p hv]
    rcases List.mem_append.mp hq with hq | hq
    · exact hA q hq
    · rw [List.mem_singleton.mp hq]; exact hp
  · intro q hq
    rw [show_nobjects D G p hv] at hq ⊢
    obtain ⟨h1, h2, h3, h4, h5⟩ := hB q hq
    rw [show_drawins D G p hv, show_refs D G p hv, show_connection D G p hv, hwin]
    have hnext : (xcb_map_window
        (if (G.objects p).geometry_dirty = true then
          xcb_configure_window G.connection (G.objects p).window (G.objects p).geometry
         else G.connection) (G.objects p).window).next_id = G.connection.next_id := by
      split_ifs <;> rfl
    have hmapped : ∀ win, (xcb_map_window
        (if (G.objects p).geometry_dirty = true then
          xcb_configure_window G.connection (G.objects p).window (G.objects p).geometry
         else G.connection) (G.objects p).window).mapped win
        = if win = (G.objects p).window then true else G.connection.mapped win := by
      intro win
      split_ifs <;> simp_all [xcb_map_window, xcb_configure_window, Function.update_apply]
    rw [hnext, hmapped]
    refine ⟨?_, ?_, ?_, h4, ?_⟩
    · by_cases hqp : q = p
      · subst hqp
        rw [show_self D G q hv]
        simp [List.count_append, h1, hv]
      · rw [show_ne D G p q hv hqp, List.count_append, h1]
        simp [List.count_singleton, Ne.symm hqp]
    · by_cases hqp : q = p
      · subst hqp
        rw [show_self D G q hv]
        simp [h2, hv]
      · rw [show_ne D G p q hv hqp, Function.update_noteq hqp]
        exact h2
    · by_cases hqp : q = p
      · subst hqp
        rw [show_self D G q hv]
        simp
      · rw [show_ne D G p q hv hqp]
        have hne : (G.objects q).window ≠ (G.objects p).window :=
          fun e => hqp ((hB p hp).2.2.2.2 q hq e)
        simp [hne, h3]
    · intro r hr hrw
      rw [hwin] at hrw
      exact h5 r hr hrw

theorem visible_inv_hide (D : drawable_class_t) (G : globalconf_t) (p : Nat)
    (hp : p < G.nobjects) (hv : (G.objects p).visible = true) (h : visible_inv G) :
    visible_inv (drawin_set_visible D G p false) := by
  obtain ⟨hA, hB⟩ := h
  have hwin : ∀ q, ((drawin_set_visible D G p false).objects q).window = (G.objects q).window := by
    intro q
    by_cases hqp : q = p
    · subst hqp; rw [hide_self D G q hv]
    · rw [hide_ne D G p q hv hqp]
  refine ⟨?_, ?_⟩
  · intro q hq
    rw [hide_drawins D G p hv] at hq
    rw [hide_nobjects D G p hv]
    exact hA q (List.mem_of_mem_erase hq)
  · intro q hq
    rw [hide_nobjects D G p hv] at hq ⊢
    obtain ⟨h1, h2, h3, h4, h5⟩ := hB q hq
    rw [hide_drawins D G p hv, hide_refs D G p hv, hide_connection D G p hv, hwin]
    simp only [xcb_unmap_window]
    refine ⟨?_, ?_, ?_, h4, ?_⟩
    · by_cases hqp : q = p
      · subst hqp
        rw [hide_self D G q hv]
        simp [List.count_erase_self, h1, hv]
      · rw [hide_ne D G p q hv hqp, List.count_erase_of_ne hqp, h1]
    · by_cases hqp : q = p
      · subst hqp
        rw [hide_self D G q hv]
        simp [h2, hv]
      · rw [hide_ne D G p q hv hqp, Function.update_noteq hqp]
        exact h2
    · by_cases hqp : q = p
      · subst hqp
        rw [hide_self D G q hv]
        simp
      · rw [hide_ne D G p q hv hqp]
        have hne : (G.objects q).window ≠ (G.objects p).window :=
          fun e => hqp ((hB p hp).2.2.2.2 q hq e)
        simp [Function.update_noteq hne, h3]
    · intro r hr hrw
      rw [hwin] at hrw
      exact h5 r hr hrw

theorem visible_inv_set_visible (D : drawable_class_t) (G : globalconf_t) (p : Nat)
    (v : Bool) (hp : p < G.nobjects) (h : visible_inv G) :
    visible_inv (drawin_set_visible D G p v) := by
  by_cases hv : v = (G.objects p).visible
  · rw [set_visible_same D G p v hv]; exact h
  · cases v with
    | true =>
      have hf : (G.objects p).visible = false := by
        cases hvis : (G.objects p).visible with
        | true => rw [hvis] at hv; exact absurd rfl hv
        | false => rfl
      exact visible_inv_show D G p hp hf h
    | false =>
      have ht : (G.objects p).visible = true := by
        cases hvis : (G.objects p).visible with
        | false => rw [hvis] at hv; exact absurd rfl hv
        | true => rfl
      exact visible_inv_hide D G p hp ht h

theorem visible_reachable_inv (D : drawable_class_t) (G : globalconf_t)
    (h : visible_reachable D G) : visible_inv G := by
  induction h with
  | init c => exact visible_inv_init c
  | allocator G _ ih => exact visible_inv_allocator D G ih
  | set_visible G p v _ hp ih => exact visible_inv_set_visible D G p v hp ih

theorem show_visible (D : drawable_class_t) (G : globalconf_t) (p : Nat)
    (h : (G.objects p).visible = false) :
    ((drawin_set_visible D G p true).objects p).visible = true := by
  rw [show_self D G p h]

theorem show_hide_drawins (D : drawable_class_t) (G : globalconf_t) (p : Nat)
    (h : (G.objects p).visible = false) (hn : p ∉ G.drawins) :
    (drawin_set_visible D (drawin_set_visible D G p true) p false).drawins = G.drawins := by
  rw [hide_drawins D _ p (show_visible D G p h), show_drawins D G p h,
    List.erase_append_right _ hn]
  simp

theorem show_hide_refs (D : drawable_class_t) (G : globalconf_t) (p : Nat)
    (h : (G.objects p).visible = false) :
    (drawin_set_visible D (drawin_set_visible D G p true) p false).refs = G.refs := by
  rw [hide_refs D _ p (show_visible D G p h), show_refs D G p h]
  simp

/-- C6: `drawin_set_visible` with the value the drawin already has returns the
state unchanged.  Showing a hidden drawin sets `visible`, sends the pending
configure request if there is one and then the map request, appends the drawin
to `globalconf.drawins` and takes one reference; hiding a visible drawin clears
`visible`, sends the unmap request, erases the drawin from `globalconf.drawins`
and releases one reference; both emit `property::visible` once.  In a reachable
state, hiding removes the drawin from the array, and showing then hiding a
hidden drawin restores the array and the reference counts. -/
theorem set_visible_toggles (D : drawable_class_t) (G : globalconf_t) (p : Nat) :
    (∀ v, v = (G.objects p).visible → drawin_set_visible D G p v = G)
    ∧ ((G.objects p).visible = false →
        ((drawin_set_visible D G p true).objects p).visible = true
        ∧ ((drawin_set_visible D G p true).objects p).geometry_dirty = false
        ∧ ((drawin_set_visible D G p true).objects p).geometry = (G.objects p).geometry
        ∧ (drawin_set_visible D G p true).connection.requests =
            G.connection.requests ++
              (if (G.objects p).geometry_dirty = true then
                [xcb_request.configure_window (G.objects p).window (G.objects p).geometry]
               else []) ++
              [xcb_request.map_window (G.objects p).window]
        ∧ (drawin_set_visible D G p true).connection.geom (G.objects p).window =
            (if (G.objects p).geometry_dirty = true then (G.objects p).geometry
             else G.connection.geom (G.objects p).window)
        ∧ (drawin_set_visible D G p true).connection.mapped (G.objects p).window = true
        ∧ (drawin_set_visible D G p true).drawins = G.drawins ++ [p]
        ∧ (drawin_set_visible D G p true).refs = Function.update G.refs p (G.refs p + 1)
        ∧ (drawin_set_visible D G p true).signals =
            G.signals ++ [{ target := lua_object.drawin p, name := "property::visible" }] ++
              (if (G.objects p).strut = true then
                [{ target := lua_object.screen_at (G.objects p).geometry.x
                    (G.objects p).geometry.y, name := "property::workarea" }]
               else [])
        ∧ (drawin_set_visible D G p true).signals.count
            { target := lua_object.drawin p, name := "property::visible" } =
            G.signals.count { target := lua_object.drawin p, name := "property::visible" } + 1)
    ∧ ((G.objects p).visible = true →
        (drawin_set_visible D G p false).objects p = { G.objects p with visible := false }
        ∧ (drawin_set_visible D G p false).connection.requests =
            G.connection.requests ++ [xcb_request.unmap_window (G.objects p).window]
        ∧ (drawin_set_visible D G p false).connection.mapped (G.objects p).window = false
        ∧ (drawin_set_visible D G p false).drawins = G.drawins.erase p
        ∧ (drawin_set_visible D G p false).refs = Function.update G.refs p (G.refs p - 1)
        ∧ (drawin_set_visible D G p false).signals =
            G.signals ++ [{ target := lua_object.drawin p, name := "property::visible" }] ++
              (if (G.objects p).strut = true then
                [{ target := lua_object.screen_at (G.objects p).geometry.x
                    (G.objects p).geometry.y, name := "property::workarea" }]
               else [])
        ∧ (drawin_set_visible D G p false).signals.count
            { target := lua_object.drawin p, name := "property::visible" } =
            G.signals.count { target := lua_object.drawin p, name := "property::visible" } + 1)
    ∧ (visible_reachable D G → p < G.nobjects → (G.objects p).visible = true →
        p ∉ (drawin_set_visible D G p false).drawins)
    ∧ (visible_reachable D G → p < G.nobjects → (G.objects p).visible = false →
        (drawin_set_visible D (drawin_set_visible D G p true) p false).drawins = G.drawins
        ∧ (drawin_set_visible D (drawin_set_visible D G p true) p false).refs = G.refs) := by
  refine ⟨fun v hv => set_visible_same D G p v hv, ?_, ?_, ?_, ?_⟩
  · intro h
    refine ⟨show_visible D G p h, ?_, ?_, ?_, ?_, ?_, show_drawins D G p h,
      show_refs D G p h, show_signals D G p h, ?_⟩
    · rw [show_self D G p h]
    · rw [show_self D G p h]
    · rw [show_connection D G p h]
      split_ifs <;> simp [xcb_map_window, xcb_configure_window]
    · rw [show_connection D G p h]
      split_ifs <;> simp [xcb_map_window, xcb_configure_window]
    · rw [show_connection D G p h]
      split_ifs <;> simp [xcb_map_window, xcb_configure_window]
    · rw [show_signals D G p h]
      split_ifs <;> simp [List.count_append, List.count_singleton]
  · intro h
    refine ⟨hide_self D G p h, ?_, ?_, hide_drawins D G p h, hide_refs D G p h,
      hide_signals D G p h, ?_⟩
    · rw [hide_connection D G p h]
      simp [xcb_unmap_window]
    · rw [hide_connection D G p h]
      simp [xcb_unmap_window]
    · rw [hide_signals D G p h]
      split_ifs <;> simp [List.count_append, List.count_singleton]
  · intro hG hp h
    have hc := ((visible_reachable_inv D G hG).2 p hp).1
    rw [hide_drawins D G p h, ← List.count_eq_zero, List.count_erase_self, hc]
    simp [h]
  · intro hG hp h
    have hc := ((visible_reachable_inv D G hG).2 p hp).1
    have hn : p ∉ G.drawins := by
      rw [← List.count_eq_zero, hc]
      simp [h]
    exact ⟨show_hide_drawins D G p h hn, show_hide_refs D G p h⟩

theorem globalconf_one_reachable : visible_reachable drawable_class_sample globalconf_one :=
  visible_reachable.allocator _ (visible_reachable.init xserver_empty)

theorem globalconf_shown_reachable : visible_reachable drawable_class_sample globalconf_shown :=
  visible_reachable.set_visible _ 0 true globalconf_one_reachable (by decide)

theorem set_visible_toggles_witness :
    drawin_set_visible drawable_class_sample globalconf_shown 0 true = globalconf_shown
    ∧ (drawin_set_visible drawable_class_sample globalconf_pending 0 true).connection.requests =
        [xcb_request.create_window 1 { x := 0, y := 0, width := 1, height := 1 },
         xcb_request.configure_window 1 { x := 5, y := 6, width := 20, height := 30 },
         xcb_request.map_window 1]
    ∧ (drawin_set_visible drawable_class_sample globalconf_pending 0 true).drawins = [0]
    ∧ (drawin_set_visible drawable_class_sample globalconf_pending 0 true).refs 0 = 1
    ∧ (drawin_set_visible drawable_class_sample globalconf_shown 0 false).connection.requests =
        [xcb_request.create_window 1 { x := 0, y := 0, width := 1, height := 1 },
         xcb_request.map_window 1,
         xcb_request.unmap_window 1]
    ∧ (drawin_set_visible drawable_class_sample globalconf_shown 0 false).drawins = []
    ∧ 0 ∉ (drawin_set_visible drawable_class_sample globalconf_shown 0 false).drawins
    ∧ (drawin_set_visible drawable_class_sample
          (drawin_set_visible drawable_class_sample globalconf_one 0 true) 0 false).drawins
        = globalconf_one.drawins
    ∧ (drawin_set_visible drawable_class_sample
          (drawin_set_visible drawable_class_sample globalconf_one 0 true) 0 false).refs
        = globalconf_one.refs :=
  ⟨(set_visible_toggles drawable_class_sample globalconf_shown 0).1 true (by decide),
   ((set_visible_toggles drawable_class_sample globalconf_pending 0).2.1 (by decide)).2.2.2.1,
   ((set_visible_toggles drawable_class_sample globalconf_pending 0).2.1
      (by decide)).2.2.2.2.2.2.1,
   by decide,
   ((set_visible_toggles drawable_class_sample globalconf_shown 0).2.2.1 (by decide)).2.1,
   ((set_visible_toggles drawable_class_sample globalconf_shown 0).2.2.1 (by decide)).2.2.2.1,
   (set_visible_toggles drawable_class_sample globalconf_shown 0).2.2.2.1
      globalconf_shown_reachable (by decide) (by decide),
   (set_visible_toggles drawable_class_sample globalconf_one 0).2.2.2.2
      globalconf_one_reachable (by decide) (by decide)⟩

/-! ## Visible drawins, references and mapped windows -/

/-- C7: in every state reachable from freshly allocated drawins by calls of
`drawin_set_visible`, an allocated drawin occurs in `globalconf.drawins` once
when it is visible and not at all otherwise, it holds one reference when it is
visible and none otherwise, and its window is mapped exactly when it is
visible; so a drawin without a reference is hidden, its window is not mapped and
it is not in the array. -/
theorem visible_drawins_refs (D : drawable_class_t) (G : globalconf_t)
    (hG : visible_reachable D G) (p : Nat) (hp : p < G.nobjects) :
    G.drawins.count p = (if (G.objects p).visible = true then 1 else 0)
    ∧ G.refs p = (if (G.objects p).visible = true then 1 else 0)
    ∧ (G.refs p = 1 ↔ (G.objects p).visible = true)
    ∧ G.connection.mapped (G.objects p).window = (G.objects p).visible
    ∧ (G.refs p = 0 →
        (G.objects p).visible = false
        ∧ G.connection.mapped (G.objects p).window = false
        ∧ p ∉ G.drawins) := by
  obtain ⟨h1, h2, h3, _, _⟩ := (visible_reachable_inv D G hG).2 p hp
  refine ⟨h1, h2, ?_, h3, ?_⟩
  · rw [h2]
    by_cases hv : (G.objects p).visible = true <;> simp [hv]
  · intro h0
    rw [h2] at h0
    have hv : (G.objects p).visible = false := by
      by_cases hv : (G.objects p).visible = true
      · simp [hv] at h0
      · simpa using hv
    refine ⟨hv, by rw [h3, hv], ?_⟩
    rw [← List.count_eq_zero, h1]
    simp [hv]

theorem globalconf_two_reachable : visible_reachable drawable_class_sample globalconf_two :=
  visible_reachable.set_visible _ 0 true
    (visible_reachable.set_visible _ 1 true
      (visible_reachable.allocator _ globalconf_one_reachable) (by decide))
    (by decide)

theorem visible_drawins_refs_witness :
    globalconf_two.drawins = [1, 0]
    ∧ (globalconf_two.drawins.count 1 = if (globalconf_two.objects 1).visible = true then 1 else 0)
    ∧ globalconf_two.connection.mapped (globalconf_two.objects 1).window
        = (globalconf_two.objects 1).visible
    ∧ globalconf_one.refs 0 = 0
    ∧ 0 ∉ globalconf_one.drawins :=
  ⟨by decide,
   (visible_drawins_refs drawable_class_sample globalconf_two globalconf_two_reachable 1
      (by decide)).1,
   (visible_drawins_refs drawable_class_sample globalconf_two globalconf_two_reachable 1
      (by decide)).2.2.2.1,
   by decide,
   ((visible_drawins_refs drawable_class_sample globalconf_one
      globalconf_one_reachable 0 (by decide)).2.2.2.2 (by decide)).2.2⟩

/-! ## drawin_getbywin -/

theorem getbywin_loop_find (objects : Nat → drawin_t) (win : Nat) (l : List Nat) :
    drawin_getbywin_loop objects win l = l.find? (fun w => (objects w).window == win) := by
  induction l with
  | nil => rfl
  | cons a rest ih =>
    unfold drawin_getbywin_loop
    by_cases h : ((objects a).window == win) = true
    · simp [h]
    · simp [h, ih]

/-- C8: `drawin_getbywin` leaves the state as it is; its result is the first
drawin of `globalconf.drawins` whose window is `win` (a member of the array,
with that window, every drawin before it having another window), and it is
`NULL` exactly when no drawin of the array has the window `win`. -/
theorem drawin_getbywin_first (G : globalconf_t) (win : Nat) :
    (drawin_getbywin G win).2 = G
    ∧ (drawin_getbywin G win).1 = G.drawins.find? (fun w => (G.objects w).window == win)
    ∧ (∀ d, (drawin_getbywin G win).1 = some d ↔
        (G.objects d).window = win
        ∧ ∃ before after, G.drawins = before ++ d :: after
            ∧ ∀ e ∈ before, (G.objects e).window ≠ win)
    ∧ (∀ d, (drawin_getbywin G win).1 = some d → d ∈ G.drawins ∧ (G.objects d).window = win)
    ∧ ((drawin_getbywin G win).1 = none ↔ ∀ d ∈ G.drawins, (G.objects d).window ≠ win)
    ∧ ((∃ d ∈ G.drawins, (G.objects d).window = win) →
        ∃ d, (drawin_getbywin G win).1 = some d) := by
  have hfind : (drawin_getbywin G win).1
      = G.drawins.find? (fun w => (G.objects w).window == win) :=
    getbywin_loop_find G.objects win G.drawins
  have hnone : (drawin_getbywin G win).1 = none ↔
      ∀ d ∈ G.drawins, (G.objects d).window ≠ win := by
    rw [hfind, List.find?_eq_none]
    simp
  refine ⟨rfl, hfind, ?_, ?_, hnone, ?_⟩
  · intro d
    rw [hfind, List.find?_eq_some]
    simp
  · intro d hd
    rw [hfind] at hd
    exact ⟨List.mem_of_find?_eq_some hd, by simpa using List.find?_some hd⟩
  · rintro ⟨d, hd, hw⟩
    cases hr : (drawin_getbywin G win).1 with
    | some e => exact ⟨e, rfl⟩
    | none => exact absurd hw (hnone.mp hr d hd)

theorem drawin_getbywin_first_witness :
    (drawin_getbywin globalconf_two 1).1 = some 0
    ∧ (0 ∈ globalconf_two.drawins ∧ (globalconf_two.objects 0).window = 1)
    ∧ (drawin_getbywin globalconf_two 2).1 = some 1
    ∧ (drawin_getbywin globalconf_two 5).1 = none :=
  ⟨by decide,
   (drawin_getbywin_first globalconf_two 1).2.2.2.1 0 (by decide),
   ((drawin_getbywin_first globalconf_two 2).2.2.1 1).mpr
      ⟨by decide, [], [0], by decide, by simp⟩,
   (drawin_getbywin_first globalconf_two 5).2.2.2.2.1.mpr (by decide)⟩

/-! ## get_screen_info -/

theorem ScreenInfo_store_getElem? (si : List ScreenInfo) (i j : Nat)
    (f : ScreenInfo → ScreenInfo) :
    (ScreenInfo_store si i f)[j]? = if j = i then si[j]?.map f else si[j]? := by
  unfold ScreenInfo_store
  cases hs : si[i]? with
  | none =>
    by_cases hji : j = i
    · subst hji; simp [hs]
    · simp [hji]
  | some s =>
    have hlt : i < si.length := by
      by_contra hge
      rw [List.getElem?_eq_none (not_lt.mp hge)] at hs
      exact Option.noConfusion hs
    by_cases hji : j = i
    · subst hji; simp [hs, List.getElem?_set, hlt]
    · simp [hji, List.getElem?_set, Ne.symm hji]

theorem get_screen_info_loop_getElem? (statusbar : Statusbar) (n : Nat) :
    ∀ (i : Nat) (si : List ScreenInfo) (j : Nat),
      (get_screen_info_loop statusbar n i si)[j]? =
        if i ≤ j ∧ j < i + n then si[j]?.map (get_screen_info_body statusbar) else si[j]? := by
  induction n with
  | zero =>
    intro i si j
    have hno : ¬ (i ≤ j ∧ j < i + 0) := by omega
    rw [if_neg hno]
    rfl
  | succ n ih =>
    intro i si j
    unfold get_screen_info_loop
    rw [ih, ScreenInfo_store_getElem?]
    by_cases hji : j = i
    · subst hji
      have h1 : ¬ (j + 1 ≤ j ∧ j < j + 1 + n) := by omega
      have h2 : j ≤ j ∧ j < j + (n + 1) := by omega
      simp [h1, h2]
    · by_cases hin : i ≤ j ∧ j < i + (n + 1)
      · have h1 : i + 1 ≤ j ∧ j < i + 1 + n := by omega
        simp [hin, h1, hji]
      · have h1 : ¬ (i + 1 ≤ j ∧ j < i + 1 + n) := by omega
        simp [hin, h1, hji]

theorem get_screen_info_xinerama (disp : Display) (screen : Nat) (statusbar : Statusbar)
    (screens : List ScreenInfo) (hx : disp.xinerama = some screens) (i : Nat)
    (raw : ScreenInfo) (hi : screens[i]? = some raw) :
    (get_screen_info disp screen statusbar).1[i]? = some (get_screen_info_body statusbar raw) := by
  have hlt : i < screens.length := by
    by_contra hge
    rw [List.getElem?_eq_none (not_lt.mp hge)] at hi
    exact Option.noConfusion hi
  unfold get_screen_info
  simp only [hx]
  rw [get_screen_info_loop_getElem?]
  have h1 : 0 ≤ i ∧ i < 0 + screens.length := by omega
  rw [if_pos h1, hi]
  rfl

theorem get_screen_info_single (disp : Display) (screen : Nat) (statusbar : Statusbar)
    (hx : disp.xinerama = none) :
    (get_screen_info disp screen statusbar).1[screen]? =
      some (get_screen_info_body statusbar
        { x_org := 0, y_org := 0, width := disp.DisplayWidth screen,
          height := disp.DisplayHeight screen }) := by
  unfold get_screen_info
  simp only [hx]
  rw [get_screen_info_loop_getElem?]
  have h1 : 0 ≤ screen ∧ screen < 0 + (screen + 1) := by omega
  rw [if_pos h1]
  simp [ScreenInfo_store_getElem?, p_new_ScreenInfo, List.getElem?_replicate]

theorem get_screen_info_body_fields (statusbar : Statusbar) (raw : ScreenInfo) :
    (get_screen_info_body statusbar raw).x_org = raw.x_org
    ∧ (get_screen_info_body statusbar raw).width = raw.width
    ∧ (get_screen_info_body statusbar raw).height =
        (if statusbar.position = Position.BarTop ∨ statusbar.position = Position.BarBot then
          raw.height - statusbar.height else raw.height)
    ∧ (get_screen_info_body statusbar raw).y_org =
        (if statusbar.position = Position.BarTop then raw.y_org + statusbar.height
         else raw.y_org) := by
  unfold get_screen_info_body
  by_cases ht : statusbar.position = Position.BarTop
  · simp [ht]
  · by_cases hb : statusbar.position = Position.BarBot
    · simp [hb]
    · simp [ht, hb]

/-- C9: for every status bar and every entry `i` that `get_screen_info`
describes (a Xinerama screen `raw` at index `i` when Xinerama is active; the
index `screen`, with the raw rectangle at the origin of size `DisplayWidth` by
`DisplayHeight`, otherwise), the entry returned at `i` has the `x_org` and the
width of the raw rectangle, the raw height less the bar height when the bar is
at `BarTop` or `BarBot` and the raw height otherwise, and the raw `y_org` plus
the bar height when the bar is at `BarTop` and the raw `y_org` otherwise; for
`BarTop` the bottom edge `y_org + height` is the raw one. -/
theorem get_screen_info_adjusts (disp : Display) (screen : Nat) (statusbar : Statusbar)
    (i : Nat) (raw : ScreenInfo)
    (h : (∃ screens, disp.xinerama = some screens ∧ screens[i]? = some raw)
      ∨ (disp.xinerama = none ∧ i = screen
          ∧ raw = { x_org := 0, y_org := 0, width := disp.DisplayWidth screen,
                    height := disp.DisplayHeight screen })) :
    ∃ r, (get_screen_info disp screen statusbar).1[i]? = some r
      ∧ r.x_org = raw.x_org
      ∧ r.width = raw.width
      ∧ r.height =
          (if statusbar.position = Position.BarTop ∨ statusbar.position = Position.BarBot then
            raw.height - statusbar.height else raw.height)
      ∧ r.y_org =
          (if statusbar.position = Position.BarTop then raw.y_org + statusbar.height
           else raw.y_org)
      ∧ (statusbar.position = Position.BarTop → r.y_org + r.height = raw.y_org + raw.height) := by
  have hentry : (get_screen_info disp screen statusbar).1[i]?
      = some (get_screen_info_body statusbar raw) := by
    rcases h with ⟨screens, hx, hi⟩ | ⟨hx, hi, hraw⟩
    · exact get_screen_info_xinerama disp screen statusbar screens hx i raw hi
    · rw [hi, hraw]
      exact get_screen_info_single disp screen statusbar hx
  obtain ⟨h1, h2, h3, h4⟩ := get_screen_info_body_fields statusbar raw
  refine ⟨_, hentry, h1, h2, h3, h4, ?_⟩
  intro ht
  rw [h3, h4]
  simp [ht]

theorem get_screen_info_adjusts_witness :
    (∃ r, (get_screen_info display_xinerama 0
          { position := Position.BarTop, height := 20 }).1[1]? = some r
      ∧ r.x_org = 800
      ∧ r.width = 1024
      ∧ r.height = 768 - 20
      ∧ r.y_org = 0 + 20
      ∧ (Position.BarTop = Position.BarTop → r.y_org + r.height = 0 + 768))
    ∧ (∃ r, (get_screen_info display_single 1
          { position := Position.BarBot, height := 20 }).1[1]? = some r
      ∧ r.x_org = 0
      ∧ r.width = 1024
      ∧ r.height = 768 - 20
      ∧ r.y_org = 0
      ∧ (Position.BarBot = Position.BarTop → r.y_org + r.height = 0 + 768)) :=
  ⟨get_screen_info_adjusts display_xinerama 0 { position := Position.BarTop, height := 20 } 1
      { x_org := 800, y_org := 0, width := 1024, height := 768 }
      (Or.inl ⟨_, rfl, rfl⟩),
   get_screen_info_adjusts display_single 1 { position := Position.BarBot, height := 20 } 1
      { x_org := 0, y_org := 0, width := 1024, height := 768 }
      (Or.inr ⟨rfl, rfl, rfl⟩)⟩

/-- C10, the code at the failing input: without Xinerama and for the screen
index 1, `get_screen_info` stores 1 in `*screen_number` and returns an array of
two entries; the entry at index 0, the only index below `*screen_number`, is the
zeroed entry with the bar applied to it, and the entry of the requested screen
is at index 1, which is not below `*screen_number`. -/
theorem get_screen_info_count_single :
    (get_screen_info display_single 1 { position := Position.BarTop, height := 20 }).2 = 1
    ∧ (get_screen_info display_single 1 { position := Position.BarTop, height := 20 }).1 =
        [{ x_org := 0, y_org := 20, width := 0, height := -20 },
         { x_org := 0, y_org := 20, width := 1024, height := 748 }]
    ∧ ¬ (1 < (get_screen_info display_single 1
          { position := Position.BarTop, height := 20 }).2) :=
  ⟨by decide, by decide, by decide⟩

/-! ## Focus on the next and on the previous screen -/

theorem uicb_focus_loop_find (isvisible : Client → Int → Nat → Int → Bool) (screen : Int)
    (tags : Nat) (ntags : Int) (l : List Client) :
    uicb_focus_loop isvisible screen tags ntags l
      = l.find? (fun c => isvisible c screen tags ntags) := by
  induction l with
  | nil => rfl
  | cons c next ih =>
    unfold uicb_focus_loop
    by_cases h : isvisible c screen tags ntags = true
    · simp [h]
    · simp [h, ih]

theorem uicb_focus_loop_first (isvisible : Client → Int → Nat → Int → Bool) (screen : Int)
    (tags : Nat) (ntags : Int) (l : List Client) (c : Client)
    (h : ∃ before after, l = before ++ c :: after
      ∧ isvisible c screen tags ntags = true
      ∧ ∀ e ∈ before, isvisible e screen tags ntags = false) :
    uicb_focus_loop isvisible screen tags ntags l = some c := by
  obtain ⟨before, after, hl, hc, hb⟩ := h
  rw [uicb_focus_loop_find, List.find?_eq_some]
  refine ⟨hc, before, after, hl, ?_⟩
  intro e he
  simp [hb e he]

theorem uicb_focus_loop_none (isvisible : Client → Int → Nat → Int → Bool) (screen : Int)
    (tags : Nat) (ntags : Int) (l : List Client)
    (h : ∀ e ∈ l, isvisible e screen tags ntags = false) :
    uicb_focus_loop isvisible screen tags ntags l = none := by
  rw [uicb_focus_loop_find, List.find?_eq_none]
  intro e he
  simp [h e he]

theorem focusnextscreen_eq (isvisible : Client → Int → Nat → Int → Bool)
    (clients : List Client) (disp : Display) (confs : Int → awesome_config) (s t : Int)
    (hconf : (confs s).screen = s)
    (ht : t = if s + 1 ≥ (disp.ScreenCount : Int) then 0 else s + 1) :
    uicb_focusnextscreen isvisible clients disp confs s s =
      match uicb_focus_loop isvisible t (confs t).tags (confs t).ntags clients with
      | some c => [screen_call.focus c.display t c true t, screen_call.restack c.display t t]
      | none => [] := by
  unfold uicb_focusnextscreen
  simp only [hconf, ← ht]
  rw [show s + (t - s) = t by omega]

theorem focusprevscreen_eq (isvisible : Client → Int → Nat → Int → Bool)
    (clients : List Client) (disp : Display) (confs : Int → awesome_config) (s t : Int)
    (hconf : (confs s).screen = s)
    (ht : t = if s - 1 < 0 then (disp.ScreenCount : Int) - 1 else s - 1) :
    uicb_focusprevscreen isvisible clients disp confs s s =
      match uicb_focus_loop isvisible t (confs t).tags (confs t).ntags clients with
      | some c => [screen_call.focus c.display t c true t, screen_call.restack c.display t t]
      | none => [] := by
  unfold uicb_focusprevscreen
  simp only [hconf, ← ht]
  rw [show s + (t - s) = t by omega]

/-- C11: let `awesomeconf` and `drawcontext` point at the entries of the current
screen `s`, with `0 <= s < ScreenCount`, in the arrays indexed by the screen
number.  The target `t` of `uicb_focusnextscreen` (`s + 1`, or `0` when
`s + 1 >= ScreenCount`) and the target `u` of `uicb_focusprevscreen` (`s - 1`,
or `ScreenCount - 1` when `s - 1 < 0`) are screens of the display.  For any
`isvisible` and any list of clients, when `c` is the first client of the list
visible on the target with the tags of the target, the calls made are `focus`
on `c` and then `restack`, both with the draw context and the configuration of
the target and nothing else; when no client of the list is visible there, no
call is made. -/
theorem uicb_focus_screen_first (isvisible : Client → Int → Nat → Int → Bool)
    (clients : List Client) (disp : Display) (confs : Int → awesome_config) (s t u : Int)
    (hs0 : 0 ≤ s) (hs1 : s < (disp.ScreenCount : Int)) (hconf : (confs s).screen = s)
    (ht : t = if s + 1 ≥ (disp.ScreenCount : Int) then 0 else s + 1)
    (hu : u = if s - 1 < 0 then (disp.ScreenCount : Int) - 1 else s - 1) :
    (0 ≤ t ∧ t < (disp.ScreenCount : Int))
    ∧ (∀ c, (∃ before after, clients = before ++ c :: after
          ∧ isvisible c t (confs t).tags (confs t).ntags = true
          ∧ ∀ e ∈ before, isvisible e t (confs t).tags (confs t).ntags = false) →
        uicb_focusnextscreen isvisible clients disp confs s s =
          [screen_call.focus c.display t c true t, screen_call.restack c.display t t])
    ∧ ((∀ e ∈ clients, isvisible e t (confs t).tags (confs t).ntags = false) →
        uicb_focusnextscreen isvisible clients disp confs s s = [])
    ∧ (0 ≤ u ∧ u < (disp.ScreenCount : Int))
    ∧ (∀ c, (∃ before after, clients = before ++ c :: after
          ∧ isvisible c u (confs u).tags (confs u).ntags = true
          ∧ ∀ e ∈ before, isvisible e u (confs u).tags (confs u).ntags = false) →
        uicb_focusprevscreen isvisible clients disp confs s s =
          [screen_call.focus c.display u c true u, screen_call.restack c.display u u])
    ∧ ((∀ e ∈ clients, isvisible e u (confs u).tags (confs u).ntags = false) →
        uicb_focusprevscreen isvisible clients disp confs s s = []) := by
  refine ⟨?_, ?_, ?_, ?_, ?_, ?_⟩
  · rw [ht]
    split_ifs <;> omega
  · intro c hc
    rw [focusnextscreen_eq isvisible clients disp confs s t hconf ht,
      uicb_focus_loop_first isvisible t _ _ clients c hc]
  · intro hnone
    rw [focusnextscreen_eq isvisible clients disp confs s t hconf ht,
      uicb_focus_loop_none isvisible t _ _ clients hnone]
  · rw [hu]
    split_ifs <;> omega
  · intro c hc
    rw [focusprevscreen_eq isvisible clients disp confs s u hconf hu,
      uicb_focus_loop_first isvisible u _ _ clients c hc]
  · intro hnone
    rw [focusprevscreen_eq isvisible clients disp confs s u hconf hu,
      uicb_focus_loop_none isvisible u _ _ clients hnone]

theorem uicb_focus_screen_first_witness :
    uicb_focusnextscreen isvisible_sample clients_sample display_three confs_sample 1 1 =
      [screen_call.focus 1 2 { addr := 11, display := 1 } true 2, screen_call.restack 1 2 2]
    ∧ uicb_focusprevscreen isvisible_sample clients_sample display_three confs_sample 1 1 = [] :=
  ⟨(uicb_focus_screen_first isvisible_sample clients_sample display_three confs_sample 1 2 0
      (by decide) (by decide) (by decide) (by decide) (by decide)).2.1
      { addr := 11, display := 1 }
      ⟨[{ addr := 10, display := 1 }],
        [{ addr := 13, display := 1 }, { addr := 14, display := 1 }],
        by decide, by decide, by decide⟩,
   (uicb_focus_screen_first isvisible_sample clients_sample display_three confs_sample 1 2 0
      (by decide) (by decide) (by decide) (by decide) (by decide)).2.2.2.2.2
      (by decide)⟩

/-! ## The size of a drawin stays positive -/

theorem geometry_state_cases (D : drawable_class_t) (G : globalconf_t) (p : Nat)
    (arg : Option geometry_table) :
    (luaA_drawin_geometry D G p arg).2 = G
    ∨ ∃ g, (luaA_drawin_geometry D G p arg).2 = drawin_moveresize D G p g := by
  cases arg with
  | none => left; rfl
  | some t =>
    by_cases hw : 0 < (geometry_table_merge (G.objects p).geometry t).width
    · by_cases hh : 0 < (geometry_table_merge (G.objects p).geometry t).height
      · right
        exact ⟨_, by rw [geometry_valid D G p t hw hh]⟩
      · left
        rw [geometry_invalid D G p t (Or.inr (not_lt.mp hh))]
    · left
      rw [geometry_invalid D G p t (Or.inl (not_lt.mp hw))]

theorem set_property_state_cases (D : drawable_class_t) (G : globalconf_t) (p : Nat)
    (prop : geometry_property) (v : Int) :
    (drawin_set_property D G p prop v).2 = G
    ∨ ∃ g, (drawin_set_property D G p prop v).2 = drawin_moveresize D G p g := by
  cases prop with
  | x => right; exact ⟨_, rfl⟩
  | y => right; exact ⟨_, rfl⟩
  | width =>
    by_cases hv : v ≤ 0
    · left
      simp only [drawin_set_property, set_width_error D G p v hv]
    · right
      simp only [drawin_set_property, set_width_ok D G p v (not_le.mp hv)]
      exact ⟨_, rfl⟩
  | height =>
    by_cases hv : v ≤ 0
    · left
      simp only [drawin_set_property, set_height_error D G p v hv]
    · right
      simp only [drawin_set_property, set_height_ok D G p v (not_le.mp hv)]
      exact ⟨_, rfl⟩

theorem moveresize_area_positive (old g : area_t) (hw : 0 < old.width) (hh : 0 < old.height) :
    0 < (drawin_moveresize_area old g).width ∧ 0 < (drawin_moveresize_area old g).height := by
  unfold drawin_moveresize_area
  constructor
  · by_cases h : g.width ≤ 0
    · simp [h, hw]
    · simp [h]; exact not_le.mp h
  · by_cases h : g.height ≤ 0
    · simp [h, hh]
    · simp [h]; exact not_le.mp h

theorem size_inv_init (c : xserver_t) : size_inv (globalconf_init c) := by
  intro p hp
  simp [globalconf_init] at hp

theorem size_inv_allocator (D : drawable_class_t) (G : globalconf_t) (h : size_inv G) :
    size_inv (drawin_allocator D G).2 := by
  intro q hq
  rw [allocator_nobjects] at hq
  by_cases hqn : q = G.nobjects
  · subst hqn
    rw [allocator_self]
    exact ⟨Int.one_pos, Int.one_pos⟩
  · rw [allocator_ne _ _ _ hqn]
    exact h q (by omega)

theorem size_inv_moveresize (D : drawable_class_t) (G : globalconf_t) (p : Nat) (g : area_t)
    (hp : p < G.nobjects) (h : size_inv G) : size_inv (drawin_moveresize D G p g) := by
  intro q hq
  rw [moveresize_nobjects] at hq
  by_cases hqp : q = p
  · subst hqp
    rw [moveresize_geometry]
    exact moveresize_area_positive _ g (h q hp).1 (h q hp).2
  · rw [moveresize_ne _ _ _ _ _ hqp]
    exact h q hq

theorem size_reachable_inv (D : drawable_class_t) (G : globalconf_t)
    (h : size_reachable D G) : size_inv G := by
  induction h with
  | init c => exact size_inv_init c
  | allocator G _ ih => exact size_inv_allocator D G ih
  | moveresize G p g _ hp ih => exact size_inv_moveresize D G p g hp ih
  | geometry G p arg _ hp ih =>
    rcases geometry_state_cases D G p arg with he | ⟨g, he⟩
    · rw [he]; exact ih
    · rw [he]; exact size_inv_moveresize D G p g hp ih
  | set_property G p prop v _ hp ih =>
    rcases set_property_state_cases D G p prop v with he | ⟨g, he⟩
    · rw [he]; exact ih
    · rw [he]; exact size_inv_moveresize D G p g hp ih

/-- C12: in every state reachable from `drawin_allocator` through
`drawin_moveresize`, `luaA_drawin_geometry` and the setters of `x`, `y`,
`width` and `height` with any integer arguments, the width and the height of an
allocated drawin are positive, and they are still positive after a further
`drawin_moveresize`.  In any state `drawin_moveresize` stores the requested `x`
and `y`, keeps the previous width when the requested width is not positive and
stores the requested width otherwise, and does the same for the height. -/
theorem drawin_size_positive (D : drawable_class_t) (G : globalconf_t) (p : Nat)
    (g : area_t) :
    (size_reachable D G → p < G.nobjects →
        0 < (G.objects p).geometry.width
        ∧ 0 < (G.objects p).geometry.height
        ∧ 0 < ((drawin_moveresize D G p g).objects p).geometry.width
        ∧ 0 < ((drawin_moveresize D G p g).objects p).geometry.height)
    ∧ ((drawin_moveresize D G p g).objects p).geometry.x = g.x
    ∧ ((drawin_moveresize D G p g).objects p).geometry.y = g.y
    ∧ ((drawin_moveresize D G p g).objects p).geometry.width =
        (if g.width ≤ 0 then (G.objects p).geometry.width else g.width)
    ∧ ((drawin_moveresize D G p g).objects p).geometry.height =
        (if g.height ≤ 0 then (G.objects p).geometry.height else g.height) := by
  rw [moveresize_geometry]
  refine ⟨?_, rfl, rfl, rfl, rfl⟩
  intro hG hp
  have hinv := size_reachable_inv D G hG p hp
  have hpos := moveresize_area_positive (G.objects p).geometry g hinv.1 hinv.2
  exact ⟨hinv.1, hinv.2, hpos.1, hpos.2⟩

theorem globalconf_resized_reachable : size_reachable drawable_class_sample globalconf_resized :=
  size_reachable.moveresize _ 0 _
    (size_reachable.allocator _ (size_reachable.init xserver_empty)) (by decide)

theorem drawin_size_positive_witness :
    (globalconf_resized.objects 0).geometry = { x := 4, y := 5, width := 1, height := 25 }
    ∧ 0 < (globalconf_resized.objects 0).geometry.width
    ∧ 0 < ((drawin_moveresize drawable_class_sample globalconf_resized 0
          { x := 7, y := 8, width := 30, height := 0 }).objects 0).geometry.height
    ∧ ((drawin_moveresize drawable_class_sample globalconf_resized 0
          { x := 7, y := 8, width := 30, height := 0 }).objects 0).geometry.height
        = (if (0 : Int) ≤ 0 then (globalconf_resized.objects 0).geometry.height else 0)
    ∧ ((drawin_moveresize drawable_class_sample globalconf_resized 0
          { x := 7, y := 8, width := 30, height := 0 }).objects 0).geometry
        = { x := 7, y := 8, width := 30, height := 25 } :=
  ⟨by decide,
   ((drawin_size_positive drawable_class_sample globalconf_resized 0
      { x := 7, y := 8, width := 30, height := 0 }).1
      globalconf_resized_reachable (by decide)).1,
   ((drawin_size_positive drawable_class_sample globalconf_resized 0
      { x := 7, y := 8, width := 30, height := 0 }).1
      globalconf_resized_reachable (by decide)).2.2.2,
   (drawin_size_positive drawable_class_sample globalconf_resized 0
      { x := 7, y := 8, width := 30, height := 0 }).2.2.2.2,
   by decide⟩
